import Mathlib

/-!
Verification development for the proxy-converter core of the
Clash-converter repository.

The JavaScript sources under
`frontend/src/vendor/proxy-converter-core/` (text utilities, eight
share-link parsers, eight converters and the protocol dispatcher) are
shallowly embedded below.  JavaScript strings are modelled as lists of
Unicode code points (`Str := List Nat`); every partial JS operation
(percent decoding, Base64 decoding, JSON parsing) is embedded as a total
Lean function returning `Option` where the source catches exceptions.

Modelling notes, stated once here:
* JS `\s` / `trim()` whitespace is modelled by the common whitespace
  code points (tab, LF, VT, FF, CR, space, NBSP, LS, PS, BOM); the
  inputs handled in the theorems contain only ASCII whitespace.
* JS numbers reached by the parsers are integers gated by range checks
  (`isPort`, `> 0`, `>= 0`): numeric strings / JSON literals with a
  non-zero fractional part or an exponent are modelled as "not an
  integer" (`none`), which coincides with the `Number.isInteger` gates
  the source applies before using any such value.
* `Buffer.from(_, "base64").toString("utf8")` is modelled by sextet
  decoding that stops at the first `=` and a lossy UTF-8 decoder that
  substitutes U+FFFD for invalid sequences.
-/

namespace ClashConv

/-- Str is the model of a JavaScript string: its list of code points. -/
abbrev Str := List Nat

/-- Interpret a Lean string literal as a modelled JS string. -/
def str (s : String) : Str := s.data.map Char.toNat

/-- Whitespace used to model the JS `\s` class and `String.trim`. -/
def isJsWs (c : Nat) : Bool :=
  c = 9 || c = 10 || c = 11 || c = 12 || c = 13 || c = 32 || c = 160 ||
  c = 8232 || c = 8233 || c = 65279

/-- Model of `String.prototype.trim`. -/
def jsTrim (s : Str) : Str :=
  ((s.dropWhile isJsWs).reverse.dropWhile isJsWs).reverse

/-- ASCII decimal digit. -/
def isDigitC (c : Nat) : Bool := 48 ≤ c && c ≤ 57

/-- ASCII hex digit. -/
def isHexC (c : Nat) : Bool :=
  isDigitC c || (65 ≤ c && c ≤ 70) || (97 ≤ c && c ≤ 102)

/-- Value of an ASCII hex digit. -/
def hexVal (c : Nat) : Nat :=
  if isDigitC c then c - 48
  else if 65 ≤ c && c ≤ 70 then c - 55
  else if 97 ≤ c && c ≤ 102 then c - 87
  else 0

/-- ASCII letter. -/
def isAlphaC (c : Nat) : Bool := (65 ≤ c && c ≤ 90) || (97 ≤ c && c ≤ 122)

/-- ASCII lower-casing, the fragment of `toLowerCase` exercised here. -/
def toLowerC (c : Nat) : Nat := if 65 ≤ c && c ≤ 90 then c + 32 else c

/-- Model of `String.prototype.toLowerCase` (ASCII fragment). -/
def jsToLower (s : Str) : Str := s.map toLowerC

/-- Model of `String.prototype.indexOf` for a single character. -/
def idxOfC? (c : Nat) : Str → Option Nat
  | [] => none
  | a :: rest => if a = c then some 0 else (idxOfC? c rest).map (· + 1)

/-- Model of `String.prototype.lastIndexOf` for a single character. -/
def lastIdxOfC? (c : Nat) (s : Str) : Option Nat :=
  (idxOfC? c s.reverse).map (fun i => s.length - 1 - i)

/-- Model of `s.slice(a, b)` for `0 ≤ a ≤ b` (the only uses below). -/
def jsSlice (s : Str) (a b : Nat) : Str := (s.drop a).take (b - a)

/-- Model of `String.prototype.indexOf` for a substring pattern. -/
def idxOfSub? (pat : Str) : Str → Option Nat
  | [] => if pat.isEmpty then some 0 else none
  | a :: rest =>
    if pat.isPrefixOf (a :: rest) then some 0
    else (idxOfSub? pat rest).map (· + 1)

/-- Model of `String.prototype.includes` for a substring pattern. -/
def hasSub (s pat : Str) : Bool := (idxOfSub? pat s).isSome

/-- The part of `s` before the first occurrence of `pat`
(`s.split(pat)[0]`). -/
def beforeSub (s pat : Str) : Str :=
  match idxOfSub? pat s with
  | some i => s.take i
  | none => s

/-- Model of `String.prototype.split` on a character-class regex:
splitting keeps empty segments and the result is never empty. -/
def splitOnP (p : Nat → Bool) : Str → List Str
  | [] => [[]]
  | c :: rest =>
    let r := splitOnP p rest
    if p c then [] :: r
    else
      match r with
      | [] => [[c]]
      | h :: t => (c :: h) :: t

/-- Split on a single character. -/
def splitOnC (c : Nat) : Str → List Str := splitOnP (· = c)

/-- Count occurrences of a character (`(s.match(/c/g) || []).length`). -/
def countC (c : Nat) (s : Str) : Nat := s.count c

/-- Decimal value of a digit string (the value `parseInt` computes on a
pure-digit input). -/
def natDecVal (s : Str) : Nat := s.foldl (fun a c => a * 10 + (c - 48)) 0

/-- Model of `Number.parseInt(s, 10)`: `none` models `NaN`. -/
def jsParseIntDec (s : Str) : Option Int :=
  let t := jsTrim s
  let rest := if t.head? = some 43 ∨ t.head? = some 45 then t.drop 1 else t
  let ds := rest.takeWhile isDigitC
  if ds = [] then none
  else if t.head? = some 45 then some (-(natDecVal ds : Int))
  else some ((natDecVal ds : Int))

/-- Decimal digits of a natural number. -/
def natToDecStr (n : Nat) : Str := (Nat.toDigits 10 n).map Char.toNat

/-- Decimal representation of an integer (JS number-to-string for the
integers handled here). -/
def intToDecStr (i : Int) : Str :=
  if i < 0 then 45 :: natToDecStr i.natAbs else natToDecStr i.natAbs

/-- UTF-8 encoding of one code point. -/
def utf8EncodeChar (c : Nat) : List Nat :=
  if c < 128 then [c]
  else if c < 2048 then [192 + c / 64, 128 + c % 64]
  else if c < 65536 then [224 + c / 4096, 128 + c / 64 % 64, 128 + c % 64]
  else [240 + c / 262144, 128 + c / 4096 % 64, 128 + c / 64 % 64, 128 + c % 64]

/-- UTF-8 encoding of a string. -/
def utf8Encode (s : Str) : List Nat := (s.map utf8EncodeChar).flatten

/-- UTF-8 continuation byte. -/
def isCont (b : Nat) : Bool := 128 ≤ b && b ≤ 191

/-- One decoding step of the lossy UTF-8 decoder: given a lead byte and
the remaining bytes, produce the decoded code point (U+FFFD on an
invalid sequence, consuming only the lead byte) and the rest. -/
def utf8Step (b : Nat) (rest : List Nat) : Nat × List Nat :=
  if b < 128 then (b, rest)
  else if 194 ≤ b && b ≤ 223 then
    match rest with
    | b2 :: rest2 =>
      if isCont b2 then ((b - 192) * 64 + (b2 - 128), rest2) else (65533, b2 :: rest2)
    | [] => (65533, [])
  else if 224 ≤ b && b ≤ 239 then
    match rest with
    | b2 :: b3 :: rest3 =>
      if ((b = 224 && 160 ≤ b2 && b2 ≤ 191) ||
          (b = 237 && 128 ≤ b2 && b2 ≤ 159) ||
          (b ≠ 224 && b ≠ 237 && isCont b2)) && isCont b3 then
        ((b - 224) * 4096 + (b2 - 128) * 64 + (b3 - 128), rest3)
      else (65533, b2 :: b3 :: rest3)
    | r => (65533, r)
  else if 240 ≤ b && b ≤ 244 then
    match rest with
    | b2 :: b3 :: b4 :: rest4 =>
      if ((b = 240 && 144 ≤ b2 && b2 ≤ 191) ||
          (b = 244 && 128 ≤ b2 && b2 ≤ 143) ||
          (b ≠ 240 && b ≠ 244 && isCont b2)) && isCont b3 && isCont b4 then
        ((b - 240) * 262144 + (b2 - 128) * 4096 + (b3 - 128) * 64 + (b4 - 128), rest4)
      else (65533, b2 :: b3 :: b4 :: rest4)
    | r => (65533, r)
  else (65533, rest)

theorem utf8Step_len (b : Nat) (rest : List Nat) :
    (utf8Step b rest).2.length ≤ rest.length := by
  unfold utf8Step
  repeat' split
  all_goals simp_all
  all_goals omega

/-- Lossy UTF-8 decoding (`toString("utf8")` / `TextDecoder` with
`fatal:false`): invalid sequences become U+FFFD, consuming the lead
byte. -/
def utf8DecodeLossy : List Nat → Str
  | [] => []
  | b :: rest => (utf8Step b rest).1 :: utf8DecodeLossy (utf8Step b rest).2
termination_by l => l.length
decreasing_by
  have h := utf8Step_len b rest
  simp_arith
  omega

/-- Read two hex digits (the `XX` of a `%XX` escape). -/
def hexPairAt : Str → Option (Nat × Str)
  | h1 :: h2 :: rest =>
    if isHexC h1 && isHexC h2 then some (hexVal h1 * 16 + hexVal h2, rest)
    else none
  | _ => none

/-- Read a `%XX` continuation-byte escape. -/
def pctCont : Str → Option (Nat × Str)
  | 37 :: rest => hexPairAt rest
  | _ => none

/-- Fuel-indexed loop of the ECMAScript `Decode` abstract operation used
by `decodeURIComponent`: escape sequences must form strictly valid UTF-8
(no overlong forms, no surrogates), otherwise the operation throws
(`none`). -/
def pctGo : Nat → Str → Option Str
  | 0, _ => none
  | _ + 1, [] => some []
  | fuel + 1, c :: rest =>
    if c ≠ 37 then (pctGo fuel rest).map (c :: ·)
    else
      match hexPairAt rest with
      | none => none
      | some (b, r1) =>
        if b < 128 then (pctGo fuel r1).map (b :: ·)
        else if 194 ≤ b && b ≤ 223 then
          match pctCont r1 with
          | some (b2, r2) =>
            if isCont b2 then (pctGo fuel r2).map (((b - 192) * 64 + (b2 - 128)) :: ·)
            else none
          | none => none
        else if 224 ≤ b && b ≤ 239 then
          match pctCont r1 with
          | some (b2, r2) =>
            if (b = 224 && 160 ≤ b2 && b2 ≤ 191) ||
               (b = 237 && 128 ≤ b2 && b2 ≤ 159) ||
               (b ≠ 224 && b ≠ 237 && isCont b2) then
              match pctCont r2 with
              | some (b3, r3) =>
                if isCont b3 then
                  (pctGo fuel r3).map
                    (((b - 224) * 4096 + (b2 - 128) * 64 + (b3 - 128)) :: ·)
                else none
              | none => none
            else none
          | none => none
        else if 240 ≤ b && b ≤ 244 then
          match pctCont r1 with
          | some (b2, r2) =>
            if (b = 240 && 144 ≤ b2 && b2 ≤ 191) ||
               (b = 244 && 128 ≤ b2 && b2 ≤ 143) ||
               (b ≠ 240 && b ≠ 244 && isCont b2) then
              match pctCont r2 with
              | some (b3, r3) =>
                if isCont b3 then
                  match pctCont r3 with
                  | some (b4, r4) =>
                    if isCont b4 then
                      (pctGo fuel r4).map
                        (((b - 240) * 262144 + (b2 - 128) * 4096 +
                          (b3 - 128) * 64 + (b4 - 128)) :: ·)
                    else none
                  | none => none
                else none
              | none => none
            else none
          | none => none
        else none

/-- Model of `decodeURIComponent`: `none` models a thrown `URIError`. -/
def percentDecodeStrict (s : Str) : Option Str := pctGo (s.length + 1) s

/-- The `replace(/%(?![0-9A-Fa-f]{2})/g, "%25")` retry step of
`safeDecodeURIComponent`. -/
def fixPct : Str → Str
  | [] => []
  | 37 :: rest =>
    (match rest with
     | h1 :: h2 :: _ =>
       if isHexC h1 && isHexC h2 then 37 :: fixPct rest
       else 37 :: 50 :: 53 :: fixPct rest
     | _ => 37 :: 50 :: 53 :: fixPct rest)
  | c :: rest => c :: fixPct rest

/-- Model of `safeDecodeURIComponent` (core/utils.js): decode, retry
with stray `%` escaped, else return the input unchanged. -/
def safeDecodeURIComponent (s : Str) : Str :=
  match percentDecodeStrict s with
  | some r => r
  | none =>
    match percentDecodeStrict (fixPct s) with
    | some r => r
    | none => s

/-- Base64 value of an alphabet character. -/
def b64v? (c : Nat) : Option Nat :=
  if 65 ≤ c && c ≤ 90 then some (c - 65)
  else if 97 ≤ c && c ≤ 122 then some (c - 71)
  else if 48 ≤ c && c ≤ 57 then some (c + 4)
  else if c = 43 then some 62
  else if c = 47 then some 63
  else none

/-- Base64 alphabet character of a sextet value. -/
def b64chr (n : Nat) : Nat :=
  if n < 26 then n + 65
  else if n < 52 then n + 71
  else if n < 62 then n - 4
  else if n = 62 then 43
  else 47

/-- Model of `_normalizeBase64Input` (core/utils.js): trim, strip
whitespace, base64url → base64, pad. -/
def normalizeBase64Input (s : Str) : Str :=
  let raw := jsTrim s
  if raw = [] then []
  else
    let compact := raw.filter (fun c => !(isJsWs c))
    let normalized := compact.map (fun c => if c = 45 then 43 else if c = 95 then 47 else c)
    match normalized.length % 4 with
    | 0 => normalized
    | 2 => normalized ++ [61, 61]
    | 3 => normalized ++ [61]
    | _ => normalized

/-- Characters admitted by the `[^0-9A-Za-z+/=]` filter. -/
def validB64Charset (c : Nat) : Bool :=
  isDigitC c || isAlphaC c || c = 43 || c = 47 || c = 61

/-- Sextet stream of a base64 text, stopping at the first `=`
(Node `Buffer.from(_, "base64")` behaviour). -/
def sextets : Str → List Nat
  | [] => []
  | c :: rest =>
    if c = 61 then []
    else
      match b64v? c with
      | some v => v :: sextets rest
      | none => sextets rest

/-- Bytes of a sextet stream (incomplete trailing bits dropped). -/
def b64Bytes : List Nat → List Nat
  | a :: b :: c :: d :: rest =>
    (a * 4 + b / 16) :: (b % 16 * 16 + c / 4) :: (c % 4 * 64 + d) :: b64Bytes rest
  | [a, b, c] => [a * 4 + b / 16, b % 16 * 16 + c / 4]
  | [a, b] => [a * 4 + b / 16]
  | _ => []

/-- Model of `base64DecodeUtf8` (core/utils.js): `none` models the
`null` failure result. -/
def base64DecodeUtf8 (s : Str) : Option Str :=
  let normalized := normalizeBase64Input s
  if normalized = [] then none
  else if normalized.any (fun c => !(validB64Charset c)) then none
  else if normalized.length % 4 = 1 then none
  else some (utf8DecodeLossy (b64Bytes (sextets normalized)))

/-- Standard Base64 encoding of a byte list (claim-side operation for
the Base64-UUID round trip). -/
def b64EncTriples : List Nat → Str
  | x :: y :: z :: rest =>
    b64chr (x / 4) :: b64chr (x % 4 * 16 + y / 16) ::
    b64chr (y % 16 * 4 + z / 64) :: b64chr (z % 64) :: b64EncTriples rest
  | [x, y] => [b64chr (x / 4), b64chr (x % 4 * 16 + y / 16), b64chr (y % 16 * 4), 61]
  | [x] => [b64chr (x / 4), b64chr (x % 4 * 16), 61, 61]
  | [] => []

/-- Standard Base64 encoding of a string (UTF-8 then Base64). -/
def b64EncodeStr (s : Str) : Str := b64EncTriples (utf8Encode s)

/-- All-hex, used for UUID groups and the Reality short-id check. -/
def isHexS (s : Str) : Bool := s.all isHexC

/-- Model of `isUuid` (core/utils.js): trimmed canonical 8-4-4-4-12
form, version nibble 1-5, variant nibble 8/9/a/b, case-insensitive. -/
def isUuid (s : Str) : Bool :=
  let v := jsTrim s
  if v = [] then false
  else
    match splitOnC 45 v with
    | [g1, g2, g3, g4, g5] =>
      g1.length = 8 && g2.length = 4 && g3.length = 4 && g4.length = 4 &&
      g5.length = 12 &&
      isHexS g1 && isHexS g2 && isHexS g3 && isHexS g4 && isHexS g5 &&
      (match g3 with
       | c :: _ => 49 ≤ c && c ≤ 53
       | [] => false) &&
      (match g4 with
       | c :: _ => c = 56 || c = 57 || c = 97 || c = 98 || c = 65 || c = 66
       | [] => false)
    | _ => false

/-- Valid port range check on a natural number. -/
def isPortNat (n : Nat) : Bool := 1 ≤ n && n ≤ 65535

/-- Model of `isPort` (core/utils.js) applied to a JS number that may be
`NaN`, and to `null`/`undefined` (both yield `false`): the parsers only
call it on numbers, `null` or `undefined`. -/
def isPortNum (o : Option Int) : Bool :=
  match o with
  | none => false
  | some n => 1 ≤ n && n ≤ 65535

/-- The `isPort(x) ? x : 0` gate the parsers apply to an authority
port (`null` yields 0). -/
def portOrZeroNat (o : Option Nat) : Nat :=
  if isPortNum (o.map Int.ofNat) then o.getD 0 else 0

/-- The `isPort(x) ? x : 0` gate on a parsed number (`NaN` / non-integer
modelled as `none` yields 0). -/
def portOrZeroInt (o : Option Int) : Nat :=
  if isPortNum o then (o.getD 0).toNat else 0

/-- Result of `splitUrlLoosely`. -/
structure UrlParts where
  scheme : Option Str
  authority : Option Str
  path : Str
  query : Option Str
  fragment : Option Str
deriving Repr, DecidableEq

/-- Scheme-character class `[A-Za-z0-9+.-]`. -/
def isSchemeC (c : Nat) : Bool := isAlphaC c || isDigitC c || c = 43 || c = 46 || c = 45

/-- Scan for the `:` ending a scheme token (the tail of the
`^([A-Za-z][A-Za-z0-9+.-]*):` regex). -/
def schemeScan (acc : Str) : Str → Option (Str × Str)
  | [] => none
  | c :: rest =>
    if c = 58 then some (acc.reverse, rest)
    else if isSchemeC c then schemeScan (c :: acc) rest
    else none

/-- Match the `^([A-Za-z][A-Za-z0-9+.-]*):` regex, returning the scheme
token and the rest after the colon. -/
def matchScheme : Str → Option (Str × Str)
  | [] => none
  | c :: rest => if isAlphaC c then schemeScan [c] rest else none

/-- Model of `splitUrlLoosely` (core/utils.js). -/
def splitUrlLoosely (url : Str) : UrlParts :=
  let s := jsTrim url
  let hashIdx := idxOfC? 35 s
  let beforeHash :=
    match hashIdx with
    | some i => s.take i
    | none => s
  let fragment := hashIdx.map (fun i => s.drop (i + 1))
  let qIdx := idxOfC? 63 beforeHash
  let beforeQuery :=
    match qIdx with
    | some i => beforeHash.take i
    | none => beforeHash
  let query := qIdx.map (fun i => beforeHash.drop (i + 1))
  match matchScheme beforeQuery with
  | some (scheme, rest0) =>
    if [47, 47].isPrefixOf rest0 then
      let rest := rest0.drop 2
      match idxOfC? 47 rest with
      | some i =>
        { scheme := some scheme, authority := some (rest.take i),
          path := rest.drop i, query := query, fragment := fragment }
      | none =>
        { scheme := some scheme, authority := some rest, path := [],
          query := query, fragment := fragment }
    else
      { scheme := some scheme, authority := none, path := rest0,
        query := query, fragment := fragment }
  | none =>
    { scheme := none, authority := none, path := beforeQuery,
      query := query, fragment := fragment }

/-- Result of `parseAuthority`. -/
structure AuthorityParts where
  userinfo : Option Str
  host : Option Str
  port : Option Nat
deriving Repr, DecidableEq

/-- The host/port-splitting part of `parseAuthority` (core/utils.js),
applied to the trimmed text after the userinfo `@` split. -/
def parseHostPort (hp : Str) : Option Str × Option Nat :=
  if hp = [] then (none, none)
  else if hp.head? = some 91 then
    match idxOfC? 93 hp with
    | some close =>
      if close > 0 then
        let host := jsSlice hp 1 close
        let rest := hp.drop (close + 1)
        if rest.head? = some 58 then
          (some host,
           match jsParseIntDec (rest.drop 1) with
           | some n => if isPortNum (some n) then some n.toNat else none
           | none => none)
        else (some host, none)
      else (some hp, none)
    | none => (some hp, none)
  else
    let colons := countC 58 hp
    if colons > 1 then (some hp, none)
    else if colons = 1 then
      match lastIdxOfC? 58 hp with
      | some i =>
        let left := hp.take i
        let right := hp.drop (i + 1)
        if right ≠ [] && right.length ≤ 5 && right.all isDigitC then
          if isPortNat (natDecVal right) then
            ((if left = [] then none else some left), some (natDecVal right))
          else (some hp, none)
        else (some hp, none)
      | none => (some hp, none)
    else (some hp, none)

/-- Model of `parseAuthority` (core/utils.js). -/
def parseAuthority (authority : Str) : AuthorityParts :=
  let raw := jsTrim authority
  let input := if [47, 47].isPrefixOf raw then raw.drop 2 else raw
  let (userinfo, hostport) :=
    match lastIdxOfC? 64 input with
    | some ai => (some (input.take ai), input.drop (ai + 1))
    | none => (none, input)
  let hp := jsTrim hostport
  let (host, port) := parseHostPort hp
  { userinfo := userinfo, host := host, port := port }

/-- A query-object value: scalar on first occurrence, array once a key
repeats. -/
inductive QVal where
  | s (v : Str)
  | arr (vs : List Str)
deriving Repr, DecidableEq

/-- A parsed query object, keys in first-seen order. -/
abbrev QueryObj := List (Str × QVal)

/-- Key insertion with the duplicate-key accumulation of `parseQuery`. -/
def qInsert (o : QueryObj) (k v : Str) : QueryObj :=
  match o with
  | [] => [(k, QVal.s v)]
  | (k', pv) :: rest =>
    if k' = k then
      match pv with
      | QVal.s v0 => (k', QVal.arr [v0, v]) :: rest
      | QVal.arr vs => (k', QVal.arr (vs ++ [v])) :: rest
    else (k', pv) :: qInsert rest k v

/-- Query-object key lookup (keys are unique by construction). -/
def qGet (o : QueryObj) (k : Str) : Option QVal :=
  match o with
  | [] => none
  | (k', v) :: rest => if k' = k then some v else qGet rest k

/-- The `'+' → ' '` replacement applied before decoding query text. -/
def plusToSpace (s : Str) : Str := s.map (fun c => if c = 43 then 32 else c)

/-- Model of `parseQuery` (core/utils.js): split on `&` or `;`, split
each pair at the first `=`, `+` to space, safe-decode key and value,
drop empty keys, accumulate duplicate keys. -/
def parseQuery (query : Str) : QueryObj :=
  let s :=
    match query with
    | 63 :: rest => rest
    | q => q
  if s = [] then []
  else
    (splitOnP (fun c => c = 38 || c = 59) s).foldl
      (fun acc part =>
        if part = [] then acc
        else
          let (kRaw, vRaw) :=
            match idxOfC? 61 part with
            | some eq => (part.take eq, part.drop (eq + 1))
            | none => (part, [])
          let k := safeDecodeURIComponent (plusToSpace kRaw)
          let v := safeDecodeURIComponent (plusToSpace vRaw)
          if k = [] then acc else qInsert acc k v)
      []

/-- The `getFirstParam` helper shared (as a copy) by the parsers. -/
def getFirstParam (o : QueryObj) (k : Str) : Option Str :=
  match qGet o k with
  | none => none
  | some (QVal.s v) => some v
  | some (QVal.arr vs) =>
    match vs with
    | [] => none
    | h :: _ => some h

/-- `asString` applied to a possibly-null string (`""` for `null`). -/
def asStringO (o : Option Str) : Str := o.getD []

/-- The `lower` helper shared (as a copy) by the parsers. -/
def lowerS (s : Str) : Str := jsToLower (jsTrim s)

/-- `lower` applied to a possibly-null string. -/
def lowerO (o : Option Str) : Str := lowerS (asStringO o)

/-- The `parseBooleanish` helper shared (as a copy) by the parsers. -/
def parseBooleanish (o : Option Str) : Bool :=
  let s := lowerO o
  if s = [] then false
  else s = str "1" || s = str "true" || s = str "yes" || s = str "y" || s = str "on"

/-- Trimmed-nonempty-or-`none` (`x.trim() || null` / `|| undefined`). -/
def trimOpt (s : Str) : Option Str :=
  let t := jsTrim s
  if t = [] then none else some t

/-- JS truthiness of a possibly-null string (`Boolean(x)`): `null`,
`undefined` and `""` are falsy. -/
def jsTruthyS (o : Option Str) : Bool := asStringO o ≠ []

/-- Model of a parsed JSON value.  A number records whether its value is
an integer (`Number.isInteger`), its integer value when it is, and its
literal text (used only for string conversion of non-integers). -/
inductive Json where
  | null
  | bool (b : Bool)
  | num (isInt : Bool) (v : Int) (lit : Str)
  | str (s : Str)
  | arr (xs : List Json)
  | obj (fields : List (Str × Json))

/-- JSON insignificant whitespace. -/
def isJsonWs (c : Nat) : Bool := c = 32 || c = 9 || c = 10 || c = 13

/-- Skip JSON whitespace. -/
def skipJWs (s : Str) : Str := s.dropWhile isJsonWs

/-- Parse a JSON string body after the opening quote; returns the
content and the rest after the closing quote.  Invalid escapes and raw
control characters make `JSON.parse` throw (`none`). -/
def parseJStrBody : Str → Option (Str × Str)
  | [] => none
  | 34 :: rest => some ([], rest)
  | 92 :: 117 :: h1 :: h2 :: h3 :: h4 :: rest =>
    if isHexC h1 && isHexC h2 && isHexC h3 && isHexC h4 then
      (parseJStrBody rest).map
        (fun (v, r) =>
          ((hexVal h1 * 4096 + hexVal h2 * 256 + hexVal h3 * 16 + hexVal h4) :: v, r))
    else none
  | 92 :: e :: rest =>
    let esc : Option Nat :=
      if e = 34 then some 34
      else if e = 92 then some 92
      else if e = 47 then some 47
      else if e = 98 then some 8
      else if e = 102 then some 12
      else if e = 110 then some 10
      else if e = 114 then some 13
      else if e = 116 then some 9
      else none
    match esc with
    | some c => (parseJStrBody rest).map (fun (v, r) => (c :: v, r))
    | none => none
  | c :: rest =>
    if c < 32 then none
    else (parseJStrBody rest).map (fun (v, r) => (c :: v, r))

/-- Parse a JSON number literal.  Literals with an exponent or a
non-zero fractional part are modelled as non-integers (see the header
note); `4.00`-style literals have integer value. -/
def parseJNum (s : Str) : Option (Json × Str) :=
  let (neg, r1) :=
    match s with
    | 45 :: r => (true, r)
    | r => (false, r)
  let intDs := r1.takeWhile isDigitC
  if intDs = [] then none
  else if intDs.length > 1 && intDs.head? = some 48 then none
  else
    let r2 := r1.drop intDs.length
    let (fracDs, r3) :=
      match r2 with
      | 46 :: rr =>
        let ds := rr.takeWhile isDigitC
        (some ds, rr.drop ds.length)
      | rr => (none, rr)
    if fracDs = some [] then none
    else
      let (hasExp, r4) :=
        match r3 with
        | 101 :: rr => (true, rr)
        | 69 :: rr => (true, rr)
        | rr => (false, rr)
      if hasExp then
        let (r5 : Str) :=
          match r4 with
          | 43 :: rr => rr
          | 45 :: rr => rr
          | rr => rr
        let expDs := r5.takeWhile isDigitC
        if expDs = [] then none
        else
          let rest := r5.drop expDs.length
          let lit := s.take (s.length - rest.length)
          some (Json.num false 0 lit, rest)
      else
        let isInt := fracDs.getD [] |>.all (· = 48)
        let v : Int := if neg then -(natDecVal intDs : Int) else (natDecVal intDs : Int)
        let lit := s.take (s.length - r3.length)
        some (Json.num isInt v lit, r3)

mutual

/-- Fuel-indexed recursive-descent JSON value parser modelling
`JSON.parse` (the fuel passed in is always sufficient). -/
def parseJVal : Nat → Str → Option (Json × Str)
  | 0, _ => none
  | fuel + 1, s0 =>
    let s := skipJWs s0
    match s with
    | [] => none
    | c :: rest =>
      if c = 110 then
        if (str "ull").isPrefixOf rest then some (Json.null, rest.drop 3) else none
      else if c = 116 then
        if (str "rue").isPrefixOf rest then some (Json.bool true, rest.drop 3) else none
      else if c = 102 then
        if (str "alse").isPrefixOf rest then some (Json.bool false, rest.drop 4) else none
      else if c = 34 then
        (parseJStrBody rest).map (fun (v, r) => (Json.str v, r))
      else if c = 91 then
        match skipJWs rest with
        | 93 :: r2 => some (Json.arr [], r2)
        | _ => (parseJArrItems fuel rest).map (fun (vs, r) => (Json.arr vs, r))
      else if c = 123 then
        match skipJWs rest with
        | 125 :: r2 => some (Json.obj [], r2)
        | _ => (parseJObjItems fuel rest).map (fun (fs, r) => (Json.obj fs, r))
      else parseJNum s

/-- Array items: `value (',' value)* ']'`. -/
def parseJArrItems : Nat → Str → Option (List Json × Str)
  | 0, _ => none
  | fuel + 1, s =>
    match parseJVal fuel s with
    | none => none
    | some (v, r) =>
      match skipJWs r with
      | 44 :: r2 => (parseJArrItems fuel r2).map (fun (vs, r3) => (v :: vs, r3))
      | 93 :: r2 => some ([v], r2)
      | _ => none

/-- Object items: `string ':' value (',' string ':' value)* '}'`. -/
def parseJObjItems : Nat → Str → Option (List (Str × Json) × Str)
  | 0, _ => none
  | fuel + 1, s =>
    match skipJWs s with
    | 34 :: r =>
      match parseJStrBody r with
      | none => none
      | some (k, r1) =>
        match skipJWs r1 with
        | 58 :: r2 =>
          match parseJVal fuel r2 with
          | none => none
          | some (v, r3) =>
            match skipJWs r3 with
            | 44 :: r4 => (parseJObjItems fuel r4).map (fun (fs, r5) => ((k, v) :: fs, r5))
            | 125 :: r4 => some ([(k, v)], r4)
            | _ => none
        | _ => none
    | _ => none

end

/-- Model of `JSON.parse`: `none` models a thrown `SyntaxError`. -/
def jsonParseStrict (s : Str) : Option Json :=
  match parseJVal (s.length + 1) s with
  | some (v, r) => if skipJWs r = [] then some v else none
  | none => none

/-- Last-binding object lookup (later duplicate keys overwrite in
`JSON.parse`). -/
def jGet (fields : List (Str × Json)) (k : Str) : Option Json :=
  (fields.reverse.find? (fun f => f.1 = k)).map (·.2)

/-- Object lookup skipping JSON `null` (the `??` chains treat a `null`
field like a missing one). -/
def jGetNN (fields : List (Str × Json)) (k : Str) : Option Json :=
  match jGet fields k with
  | some Json.null => none
  | x => x

mutual

/-- Model of JS `String(v)` on a parsed JSON value, with the parser's
`asString` null/undefined handling folded in by `jsAsStringO`. -/
def jsAsString : Json → Str
  | Json.null => []
  | Json.bool true => str "true"
  | Json.bool false => str "false"
  | Json.num isInt v lit => if isInt then intToDecStr v else lit
  | Json.str s => s
  | Json.arr xs => List.intercalate (str ",") (jsAsStrList xs)
  | Json.obj _ => str "[object Object]"

/-- String conversion of each element of a JSON array. -/
def jsAsStrList : List Json → List Str
  | [] => []
  | x :: rest => jsAsString x :: jsAsStrList rest

end

/-- The parsers' `asString` helper applied to an optional JSON value
(`""` on `undefined` and on `null`). -/
def jsAsStringO (o : Option Json) : Str :=
  match o with
  | none => []
  | some j => jsAsString j

/-- Reality sub-record of the TLS record (`{pbk, sid}`). -/
structure RealityRec where
  pbk : Option Str := none
  sid : Option Str := none

/-- The `tls` sub-record of a normalized node; optional fields model
JS `undefined`. -/
structure TlsRec where
  enabled : Bool
  security : Option Str := none
  sni : Option Str := none
  alpn : Option (List Str) := none
  insecure : Option Bool := none
  fingerprint : Option Str := none
  reality : Option RealityRec := none

/-- `{path, host}` options shared by the ws/http/h2 transports. -/
structure PathHostOpts where
  path : Str
  host : Option Str := none

/-- gRPC transport options. -/
structure GrpcOpts where
  serviceName : Option Str := none
  mode : Option Str := none

/-- The `transport` sub-record of a normalized node. -/
structure TransportRec where
  network : Str
  ws : Option PathHostOpts := none
  grpc : Option GrpcOpts := none
  http : Option PathHostOpts := none
  h2 : Option PathHostOpts := none

/-- A value of the SS `pluginOpts` bag: `true` for a bare flag segment,
a string for `key=value` segments. -/
inductive POptVal where
  | flag
  | strv (v : Str)
deriving Repr, DecidableEq

/-- Object-assignment insertion (overwrite in place, else append). -/
def pInsert (o : List (Str × POptVal)) (k : Str) (v : POptVal) : List (Str × POptVal) :=
  match o with
  | [] => [(k, v)]
  | (k', v') :: rest =>
    if k' = k then (k', v) :: rest else (k', v') :: pInsert rest k v

/-- The `smux` sub-record (`{enabled: true}` when present). -/
structure SmuxRec where
  enabled : Bool

/-- The open `extras` bag: each parser sets the keys it uses, and a
`none` field models an absent / `undefined` key. -/
structure Extras where
  rawUrl : Option Str := none
  query : Option QueryObj := none
  uuidRaw : Option Str := none
  flow : Option Str := none
  format : Option Str := none
  pluginRaw : Option Str := none
  rawBase64 : Option Str := none
  rawDecodedText : Option Str := none
  rawInnerQuery : Option Str := none
  remarks : Option Str := none
  group : Option Str := none
  v : Option Str := none
  ps : Option Str := none
  addRaw : Option Str := none
  portRaw : Option Str := none
  idRaw : Option Str := none
  aidRaw : Option Str := none
  netRaw : Option Str := none
  typeRaw : Option Str := none
  hostRaw : Option Str := none
  pathRaw : Option Str := none
  tlsRaw : Option Str := none
  rawJsonText : Option Str := none

/-- The Normalized Proxy Record produced by every parser.  Fields a
given protocol does not set are `none` (JS `undefined`). -/
structure ProxyNode where
  source : Str
  type : Str
  name : Str
  server : Str
  port : Nat
  uuid : Option Str := none
  password : Option Str := none
  cipher : Option Str := none
  alterId : Option Int := none
  plugin : Option Str := none
  pluginOpts : Option (List (Str × POptVal)) := none
  protocol : Option Str := none
  protocolParam : Option Str := none
  obfs : Option Str := none
  obfsParam : Option Str := none
  obfsPassword : Option Str := none
  authStr : Option Str := none
  auth : Option (List (Str × Json)) := none
  congestionController : Option Str := none
  reduceRtt : Option Bool := none
  requestTimeout : Option Int := none
  maxUdpRelayPacketSize : Option Int := none
  recvWindowConn : Option Int := none
  recvWindow : Option Int := none
  maxConn : Option Int := none
  disableMtuDiscovery : Option Bool := none
  fastOpen : Option Bool := none
  smux : Option SmuxRec := none
  tls : Option TlsRec := none
  transport : Option TransportRec := none
  extras : Extras
  warnings : List Str

/-- Scan the parts of a raw query for the first one whose decoded key
matches, returning the decoded value. -/
def goRawParam (key : Str) : List Str → Option Str
  | [] => none
  | part :: rest =>
    if part = [] then goRawParam key rest
    else
      let (kRaw, vRaw) :=
        match idxOfC? 61 part with
        | some eq => (part.take eq, part.drop (eq + 1))
        | none => (part, [])
      if safeDecodeURIComponent kRaw = key then some (safeDecodeURIComponent vRaw)
      else goRawParam key rest

/-- Model of `getRawQueryFirstParam` (vless-parser.js / ssr-parser.js):
first raw value for a key, splitting on `&`/`;`, no `+`-to-space. -/
def getRawQueryFirstParam (query : Option Str) (key : Str) : Option Str :=
  let raw := asStringO query
  let s :=
    match raw with
    | 63 :: rest => rest
    | q => q
  if s = [] then none
  else goRawParam key (splitOnP (fun c => c = 38 || c = 59) s)

/-- Model of `getRawQueryFirstParamNoSemicolon` (ss-parser.js): like
`getRawQueryFirstParam` but splitting on `&` only, so that `;` inside
the `plugin` value survives. -/
def getRawQueryFirstParamNoSemicolon (query : Option Str) (key : Str) : Option Str :=
  let raw := asStringO query
  let s :=
    match raw with
    | 63 :: rest => rest
    | q => q
  if s = [] then none
  else goRawParam key (splitOnC 38 s)

/-- Model of the vless-parser `parseAlpn`: join an array value with
`,`, split on `,`, trim, drop empties. -/
def parseAlpnVless (v : Option QVal) : List Str :=
  match v with
  | none => []
  | some qv =>
    let raw :=
      match qv with
      | QVal.arr vs => List.intercalate (str ",") vs
      | QVal.s s => s
    ((splitOnC 44 raw).map jsTrim).filter (· ≠ [])

/-- Model of `normalizeUuid` (vless-parser.js): tolerates the
non-standard `uuid:` prefix and Base64-encoded UUIDs; the warnings list
is threaded explicitly in place of the mutated JS array. -/
def normalizeUuidVless (uuidRaw : Str) (warnings : List Str) : Str × List Str :=
  let raw := jsTrim uuidRaw
  if raw = [] then ([], warnings ++ [str "缺少 uuid（userinfo）"])
  else
    let viaPrefix : Option (Str × List Str) :=
      if jsToLower (raw.take 5) = str "uuid:" then
        let tail := jsTrim (raw.drop (((idxOfC? 58 raw).getD 0) + 1))
        if isUuid tail then
          some (tail, warnings ++
            [str "检测到非标准 userinfo（uuid:xxx），已取 \x27:\x27 后的 UUID"])
        else
          let decodedTail := jsTrim (asStringO (base64DecodeUtf8 tail))
          if decodedTail ≠ [] ∧ isUuid decodedTail then
            some (decodedTail, warnings ++
              [str "检测到非标准 userinfo（uuid:Base64），已成功解码为标准 UUID"])
          else none
      else none
    match viaPrefix with
    | some r => r
    | none =>
      if isUuid raw then (raw, warnings)
      else
        let decoded := jsTrim (asStringO (base64DecodeUtf8 raw))
        if decoded ≠ [] ∧ isUuid decoded then
          (decoded, warnings ++ [str "检测到非标准 Base64 UUID，已成功解码为标准 UUID"])
        else
          (raw, warnings ++ [str "UUID 非法（既不是标准 UUID，也无法作为 Base64 UUID 解码）"])

/-- Model of `VLESSParser.parse` (vless-parser.js).  The top-level
`try/catch` of the source is dead in this total embedding, so only the
main path is represented. -/
def vlessParse (url : Str) : ProxyNode :=
  let rawUrl := jsTrim url
  let u := splitUrlLoosely rawUrl
  let ws0 : List Str :=
    if lowerO u.scheme ≠ [] ∧ lowerO u.scheme ≠ str "vless" then
      [str "scheme 不是 vless（当前为 " ++ asStringO u.scheme ++ str "），仍尝试按 VLESS 解析"]
    else []
  let a := parseAuthority (asStringO u.authority)
  let uuidDecoded := safeDecodeURIComponent (asStringO a.userinfo)
  let uuidWs := normalizeUuidVless uuidDecoded ws0
  let uuid := uuidWs.1
  let server := jsTrim (asStringO a.host)
  let ws2 := uuidWs.2 ++ (if server = [] then [str "缺少服务器地址（host）"] else [])
  let ws3 := ws2 ++
    (match a.port with
     | none =>
       (if server ≠ [] ∧ hasSub server (str ":") ∧
           ¬ hasSub (asStringO u.authority) (str "]") then
          [str "疑似 IPv6 地址未使用 [] 包裹，导致端口无法解析"]
        else []) ++ [str "缺少端口（port）"]
     | some p =>
       if ¬ isPortNat p then
         [str "端口非法（" ++ natToDecStr p ++ str "），期望范围 1-65535"]
       else [])
  let queryObj := parseQuery (asStringO u.query)
  let decodedName := safeDecodeURIComponent (asStringO u.fragment)
  let name :=
    if jsTrim decodedName ≠ [] then jsTrim decodedName
    else if server ≠ [] then server
    else str "vless"
  let ws4 := ws3 ++
    (if jsTrim decodedName = [] then
      [str "缺少节点名称（fragment），已使用 host 或默认值代替"] else [])
  let securityRaw := getFirstParam queryObj (str "security")
  let security := lowerO securityRaw
  let sni := trimOpt (asStringO (getFirstParam queryObj (str "sni")))
  let fp := trimOpt (asStringO (getFirstParam queryObj (str "fp")))
  let allowInsecure := parseBooleanish (getFirstParam queryObj (str "allowInsecure"))
  let alpn := parseAlpnVless (qGet queryObj (str "alpn"))
  let pbkFromRaw := getRawQueryFirstParam u.query (str "pbk")
  let pbk := trimOpt (asStringO (pbkFromRaw <|> getFirstParam queryObj (str "pbk")))
  let sid := trimOpt (asStringO (getFirstParam queryObj (str "sid")))
  let hasTlsHints : Bool :=
    sni.isSome || fp.isSome || allowInsecure || !alpn.isEmpty || pbk.isSome || sid.isSome
  let tls0 : TlsRec :=
    { enabled := false, security := none, sni := sni,
      alpn := if alpn.isEmpty then none else some alpn,
      insecure := if allowInsecure then some true else none,
      fingerprint := fp, reality := none }
  let step1 : TlsRec × List Str :=
    if security = str "tls" ∨ security = str "reality" then
      ({ tls0 with enabled := true, security := some security }, ws4)
    else if security ≠ [] then
      (tls0, ws4 ++
        [str "未知 security=" ++ asStringO securityRaw ++
         str "，将按\"无 TLS\"处理（如存在 TLS 相关参数则会尝试推断）"])
    else (tls0, ws4)
  let step2 : TlsRec × List Str :=
    if ¬ step1.1.enabled ∧ hasTlsHints then
      let sec := if pbk.isSome ∨ sid.isSome then str "reality" else str "tls"
      ({ step1.1 with enabled := true, security := some sec },
       step1.2 ++ [str "缺少或无法识别 security，已根据参数推断为 " ++ sec])
    else step1
  let step3 : TlsRec × List Str :=
    if step2.1.enabled ∧ step2.1.security = some (str "reality") then
      let wsA := step2.2 ++
        (if pbk.isNone then [str "security=reality 但缺少 pbk（Public Key）"] else [])
      let wsB := wsA ++
        (match sid with
         | some s => if ¬ isHexS s then [str "sid（Short ID）不是合法 Hex 字符串"] else []
         | none => [])
      ({ step2.1 with reality := some { pbk := pbk, sid := sid } }, wsB)
    else step2
  let typeRaw := getFirstParam queryObj (str "type")
  let network := let n := lowerO typeRaw; if n = [] then str "tcp" else n
  let supported := [str "tcp", str "ws", str "grpc", str "http"]
  let finalNetwork := if network ∈ supported then network else str "tcp"
  let ws8 := step3.2 ++
    (if network ∉ supported ∧ network ≠ [] then
      [str "未知传输层 type=" ++ asStringO typeRaw ++ str "，已降级为 tcp"]
     else [])
  let transport : TransportRec :=
    if finalNetwork = str "ws" then
      { network := finalNetwork,
        ws := some
          { path :=
              (let p := jsTrim (asStringO (getFirstParam queryObj (str "path")))
               if p = [] then str "/" else p),
            host := trimOpt (asStringO (getFirstParam queryObj (str "host"))) } }
    else if finalNetwork = str "grpc" then
      { network := finalNetwork,
        grpc := some
          { serviceName := trimOpt (asStringO (getFirstParam queryObj (str "serviceName"))),
            mode := trimOpt (asStringO (getFirstParam queryObj (str "mode"))) } }
    else if finalNetwork = str "http" then
      { network := finalNetwork,
        http := some
          { path :=
              (let p := jsTrim (asStringO (getFirstParam queryObj (str "path")))
               if p = [] then str "/" else p),
            host := trimOpt (asStringO (getFirstParam queryObj (str "host"))) } }
    else { network := finalNetwork }
  let flow := trimOpt (asStringO (getFirstParam queryObj (str "flow")))
  let extras : Extras :=
    { uuidRaw := if uuidDecoded = [] then none else some uuidDecoded,
      flow := flow,
      query := some queryObj,
      rawUrl := if rawUrl = [] then none else some rawUrl }
  { source := str "vless", type := str "vless", name := name, server := server,
    port := a.port.getD 0, uuid := some uuid, tls := some step3.1,
    transport := some transport, extras := extras, warnings := ws8 }

/-- Model of `parseMethodPassword` (ss-parser.js). -/
def parseMethodPassword (text : Str) (warnings : List Str) :
    Str × Str × List Str :=
  let s := jsTrim text
  if s = [] then ([], [], warnings ++ [str "缺少 method:password"])
  else
    match idxOfC? 58 s with
    | none => (s, [], warnings ++ [str "method:password 格式不正确（缺少 \x27:\x27）"])
    | some idx =>
      let method := jsTrim (s.take idx)
      let password := jsTrim (s.drop (idx + 1))
      let ws1 := warnings ++ (if method = [] then [str "缺少加密方法（cipher/method）"] else [])
      let ws2 := ws1 ++ (if password = [] then [str "缺少密码（password）"] else [])
      (method, password, ws2)

/-- Model of `parseUserinfoToCreds` (ss-parser.js): method, password,
the decoded userinfo (empty when the plain path was taken), and the
updated warnings. -/
def parseUserinfoToCreds (userinfoRaw : Option Str) (warnings : List Str) :
    Str × Str × Str × List Str :=
  let userinfo := jsTrim (safeDecodeURIComponent (asStringO userinfoRaw))
  if userinfo = [] then
    ([], [], [], warnings ++ [str "缺少 userinfo（method:password 或 Base64(method:password)）"])
  else
    let decoded := base64DecodeUtf8 userinfo
    let viaB64 : Option (Str × Str × Str × List Str) :=
      match decoded with
      | some d0 =>
        let d := jsTrim d0
        if d ≠ [] ∧ hasSub d (str ":") then
          let mp := parseMethodPassword d
            (warnings ++ [str "检测到 Base64(method:password) 的 userinfo，已成功解码"])
          some (mp.1, mp.2.1, d, mp.2.2)
        else none
      | none => none
    match viaB64 with
    | some r => r
    | none =>
      let mp := parseMethodPassword userinfo warnings
      (mp.1, mp.2.1, [], mp.2.2)

/-- Model of `parsePlugin` (ss-parser.js): plugin name, the option bag
and the decoded raw plugin text. -/
def parsePlugin (pluginValue : Option Str) (warnings : List Str) :
    Str × Option (List (Str × POptVal)) × Str × List Str :=
  let raw := jsTrim (asStringO pluginValue)
  if raw = [] then ([], none, [], warnings)
  else
    let s := jsTrim (safeDecodeURIComponent raw)
    if s = [] then ([], none, raw, warnings)
    else
      let parts := ((splitOnC 59 s).map jsTrim).filter (· ≠ [])
      match parts with
      | [] => ([], none, s, warnings)
      | plugin :: restParts =>
        let opts := restParts.foldl
          (fun acc seg =>
            let p := jsTrim seg
            if p = [] then acc
            else
              match idxOfC? 61 p with
              | none => pInsert acc p POptVal.flag
              | some eq =>
                let k := jsTrim (p.take eq)
                let v := jsTrim (p.drop (eq + 1))
                if k = [] then acc else pInsert acc k (POptVal.strv v))
          []
        let ws := warnings ++ (if plugin = [] then [str "plugin 参数存在但插件名为空"] else [])
        (plugin, (if opts.isEmpty then none else some opts), s, ws)

/-- The `server/port/method/password/format/warnings` computation of
`SSParser.parse` (ss-parser.js): legacy, SIP002-Base64 and SIP002-plain
sub-formats keyed off the parsed authority, split out of the parse body. -/
def ssMainResult (a1 : AuthorityParts) (ws1 : List Str) :
    Str × Nat × Str × Str × Str × List Str :=
  let hasOuterHostPort := jsTruthyS a1.host && a1.port.isSome
  let hasUserinfo := jsTrim (asStringO a1.userinfo) ≠ [] ∧ a1.userinfo.isSome
  if hasOuterHostPort then
    let server := jsTrim (safeDecodeURIComponent (asStringO a1.host))
    let portNum := portOrZeroNat a1.port
    let wsA := ws1 ++
      (if portNum = 0 then
        [str "端口不合法：port=" ++ asStringO (a1.port.map natToDecStr)] else [])
    let creds := parseUserinfoToCreds a1.userinfo wsA
    let format := if creds.2.2.1 ≠ [] then str "legacy" else str "sip002-plain"
    (server, portNum, creds.1, creds.2.1, format, creds.2.2.2)
  else if ¬ hasUserinfo ∧ jsTruthyS a1.host then
    let payloadB64 := jsTrim (safeDecodeURIComponent (asStringO a1.host))
    match base64DecodeUtf8 payloadB64 with
    | none =>
      ([], 0, [], [], str "unknown",
       ws1 ++ [str "Base64 解码失败：ss:// payload 非法（无法解析 SIP002 base64 形式）"])
    | some decoded =>
      let decodedText := jsTrim decoded
      let a2 := parseAuthority decodedText
      let wsA := ws1 ++
        (if a2.userinfo.isNone ∨ asStringO a2.userinfo = [] then
          [str "SIP002 Base64 解码后缺少 userinfo（method:password）"] else [])
      let creds := parseUserinfoToCreds a2.userinfo wsA
      let server := jsTrim (safeDecodeURIComponent (asStringO a2.host))
      let portNum := portOrZeroNat a2.port
      let wsB := creds.2.2.2 ++
        (if server = [] then [str "缺少服务器地址（Base64 解码后 host 为空）"] else [])
      let wsC := wsB ++
        (if portNum = 0 then
          [str "端口不合法：port=" ++ asStringO (a2.port.map natToDecStr)] else [])
      (server, portNum, creds.1, creds.2.1, str "sip002-base64", wsC)
  else
    ([], 0, [], [], str "unknown",
     ws1 ++ [str "无法识别 SS URL 主体结构（缺少 authority/host/userinfo）"])

/-- Model of `SSParser.parse` (ss-parser.js). -/
def ssParse (url : Str) : ProxyNode :=
  let rawUrl := jsTrim url
  if rawUrl = [] then
    { source := str "ss", type := str "ss", name := str "ss", server := [],
      port := 0, cipher := some [], password := some [],
      extras := { rawUrl := some [] },
      warnings := [str "输入为空，无法解析 SS"] }
  else
    let u := splitUrlLoosely rawUrl
    let ws0 : List Str :=
      if lowerO u.scheme ≠ [] ∧ lowerO u.scheme ≠ str "ss" then
        [str "scheme 不是 ss（当前为 " ++ asStringO u.scheme ++ str "），仍尝试按 SS 解析"]
      else []
    let nameFromFrag :=
      match u.fragment with
      | some f => jsTrim (safeDecodeURIComponent f)
      | none => []
    let queryObj := parseQuery (asStringO u.query)
    let pluginFromRaw := getRawQueryFirstParamNoSemicolon u.query (str "plugin")
    let pluginValue := pluginFromRaw <|> getFirstParam queryObj (str "plugin")
    let pp := parsePlugin pluginValue ws0
    let ws1 := pp.2.2.2
    let authorityText :=
      match u.authority with
      | some a => a
      | none => u.path
    let a1 := parseAuthority authorityText
    let main := ssMainResult a1 ws1
    let server := main.1
    let portNum := main.2.1
    let method := main.2.2.1
    let password := main.2.2.2.1
    let format := main.2.2.2.2.1
    let ws2 := main.2.2.2.2.2
    let ws3 := ws2 ++ (if server = [] then [str "缺少服务器地址：server"] else [])
    let ws4 := ws3 ++ (if portNum = 0 then [str "缺少或无效端口：port"] else [])
    let ws5 := ws4 ++ (if method = [] then [str "缺少加密方法：cipher/method"] else [])
    let ws6 := ws5 ++ (if password = [] then [str "缺少密码：password"] else [])
    let name :=
      if nameFromFrag ≠ [] then nameFromFrag
      else if server ≠ [] then server
      else str "ss"
    let extras : Extras :=
      { format := some format,
        pluginRaw := if pp.2.2.1 = [] then none else some pp.2.2.1,
        query := some queryObj,
        rawUrl := some rawUrl }
    { source := str "ss", type := str "ss", name := name, server := server,
      port := portNum, cipher := some method, password := some password,
      plugin := if pp.1 = [] then none else some pp.1,
      pluginOpts := pp.2.1,
      extras := extras, warnings := ws6 }

/-- Integer value of a string matching `^[+-]?\d+(\.\d+)?$` when the JS
number it denotes is an integer; `none` models `NaN` and non-integer
values (see the header note). -/
def strNumberishInt (s : Str) : Option Int :=
  let (neg, r1) :=
    match s with
    | 43 :: r => (false, r)
    | 45 :: r => (true, r)
    | r => (false, r)
  let ds := r1.takeWhile isDigitC
  if ds = [] then none
  else
    let r2 := r1.drop ds.length
    let v : Int := if neg then -(natDecVal ds : Int) else (natDecVal ds : Int)
    match r2 with
    | [] => some v
    | 46 :: fr =>
      if fr ≠ [] ∧ fr.all isDigitC then
        if fr.all (· = 48) then some v else none
      else none
    | _ => none

/-- Model of the vmess-parser `parseNumberish` composed with the
`Number.isInteger` gates applied at every use site: the integer value,
or `none` for `NaN` / non-integer numbers. -/
def parseNumberishJ (o : Option Json) : Option Int :=
  match o with
  | some (Json.num true v _) => some v
  | some (Json.num false _ _) => none
  | _ =>
    let s := jsTrim (jsAsStringO o)
    if s = [] then none else strNumberishInt s

/-- Model of `isTlsToken` (vmess-parser.js): membership in the fixed
TLS-toggle token set. -/
def isTlsToken (s : Str) : Bool :=
  let t := lowerS s
  if t = [] then false
  else
    decide (t ∈ [str "tls", str "xtls", str "reality", str "none", str "true",
                 str "false", str "1", str "0", str "on", str "off"])

/-- Result of `parseTlsMode` (vmess-parser.js). -/
structure TlsMode where
  enabled : Bool
  security : Option Str
  unknown : Option Str

/-- Model of `parseTlsMode` (vmess-parser.js). -/
def parseTlsMode (v : Option Json) : TlsMode :=
  let s := lowerS (jsAsStringO v)
  if s = [] ∨ s = str "none" ∨ s = str "false" ∨ s = str "0" ∨ s = str "off" then
    { enabled := false, security := none, unknown := none }
  else if s = str "tls" ∨ s = str "xtls" ∨ s = str "1" ∨ s = str "true" ∨ s = str "on" then
    { enabled := true, security := some (str "tls"), unknown := none }
  else if s = str "reality" then
    { enabled := true, security := some (str "reality"), unknown := none }
  else { enabled := false, security := none, unknown := some s }

/-- Model of the vmess-parser `parseAlpn`: arrays map/trim/filter,
strings split on `,` or `|`. -/
def parseAlpnVmess (v : Option Json) : List Str :=
  match v with
  | none => []
  | some Json.null => []
  | some (Json.arr xs) => ((jsAsStrList xs).map jsTrim).filter (· ≠ [])
  | some j =>
    let s := jsTrim (jsAsString j)
    if s = [] then []
    else ((splitOnP (fun c => c = 44 || c = 124) s).map jsTrim).filter (· ≠ [])

/-- Model of `normalizeUuid` (vmess-parser.js): Base64-UUID tolerant,
keeps the raw value with a warning when invalid. -/
def normalizeUuidVmess (uuidRaw : Option Json) (warnings : List Str) : Str × List Str :=
  let raw := jsTrim (jsAsStringO uuidRaw)
  if raw = [] then ([], warnings ++ [str "缺少 id/uuid（VMess 用户 ID）"])
  else if isUuid raw then (raw, warnings)
  else
    let decoded := jsTrim (asStringO (base64DecodeUtf8 raw))
    if decoded ≠ [] ∧ isUuid decoded then
      (decoded, warnings ++ [str "检测到非标准 Base64 UUID（id），已成功解码为标准 UUID"])
    else
      (raw, warnings ++ [str "id（uuid）不合法（既不是标准 UUID，也无法作为 Base64 UUID 解码）"])

/-- Fuel-indexed loop of the `replace(/,\s*([}\]])/g, "$1")`
trailing-comma fix (the fuel passed in is always sufficient). -/
def rmTrailCommasGo : Nat → Str → Str
  | 0, s => s
  | _ + 1, [] => []
  | fuel + 1, 44 :: rest =>
    (match rest.dropWhile isJsWs with
     | 125 :: r2 => 125 :: rmTrailCommasGo fuel r2
     | 93 :: r2 => 93 :: rmTrailCommasGo fuel r2
     | _ => 44 :: rmTrailCommasGo fuel rest)
  | fuel + 1, c :: rest => c :: rmTrailCommasGo fuel rest

/-- The trailing-comma removal step of `parseJsonLoosely`. -/
def rmTrailCommas (s : Str) : Str := rmTrailCommasGo (s.length + 1) s

/-- `asObject` (vmess-parser.js): the fields of an object value. -/
def asObject : Json → Option (List (Str × Json))
  | Json.obj f => some f
  | _ => none

/-- Model of `parseJsonLoosely` (vmess-parser.js): strict parse, then
largest `{...}` substring, then trailing-comma removal; returns the
object fields (if any), the JSON text used, and the warnings. -/
def parseJsonLoosely (text : Str) (warnings : List Str) :
    Option (List (Str × Json)) × Str × List Str :=
  let s0 := jsTrim
    (match text with
     | 65279 :: r => r
     | r => r)
  if s0 = [] then (none, s0, warnings ++ [str "VMess JSON 为空（Base64 解码后内容为空）"])
  else
    match jsonParseStrict s0 with
    | some parsed =>
      let obj := asObject parsed
      (obj, s0, warnings ++
        (if obj.isNone then
          [str "VMess JSON 不是对象（期望 \x7b...\x7d，实际为数组或其他类型）"] else []))
    | none =>
      let stage2 : Option (Option (List (Str × Json)) × Str × List Str) :=
        match idxOfC? 123 s0, lastIdxOfC? 125 s0 with
        | some i, some j =>
          if j > i then
            let sub := jsSlice s0 i (j + 1)
            match jsonParseStrict sub with
            | some parsed =>
              let obj := asObject parsed
              some (obj, sub, warnings ++
                (if obj.isNone then
                  [str "VMess JSON 不是对象（期望 \x7b...\x7d，实际为数组或其他类型）"] else []) ++
                [str "VMess JSON 不是严格格式：已截取 \x7b...\x7d 子串后解析"])
            | none => none
          else none
        | _, _ => none
      match stage2 with
      | some r => r
      | none =>
        let fixed := rmTrailCommas s0
        let stage3 : Option (Option (List (Str × Json)) × Str × List Str) :=
          if fixed ≠ s0 then
            match jsonParseStrict fixed with
            | some parsed =>
              let obj := asObject parsed
              some (obj, fixed, warnings ++
                (if obj.isNone then
                  [str "VMess JSON 不是对象（期望 \x7b...\x7d，实际为数组或其他类型）"] else []) ++
                [str "VMess JSON 不是严格格式：已尝试移除尾随逗号后解析"])
            | none => none
          else none
        match stage3 with
        | some r => r
        | none =>
          (none, s0, warnings ++ [str "VMess JSON 解析失败（无法从 Base64 解码内容中获得有效对象）"])

/-- Extras construction of `VMessParser.parse`, split out of the parse
body (field for field the object literal of the source). -/
def vmessExtras (vmObj : List (Str × Json)) (addChain alterIdRaw netRaw tlsRaw : Option Json)
    (queryRaw : Option Str) (payloadRaw jsonRawUsed rawUrl ps hostRaw pathRaw : Str) :
    Extras :=
  { v := trimOpt (jsAsStringO (jGet vmObj (str "v"))),
    ps := if ps = [] then none else some ps,
    addRaw := trimOpt (jsAsStringO addChain),
    portRaw := (jGetNN vmObj (str "port")).map jsAsString,
    idRaw := (jGetNN vmObj (str "id")).map jsAsString,
    aidRaw := alterIdRaw.map jsAsString,
    netRaw := netRaw.map jsAsString,
    typeRaw := (jGetNN vmObj (str "type")).map jsAsString,
    hostRaw := if hostRaw = [] then none else some hostRaw,
    pathRaw := if pathRaw = [] then none else some pathRaw,
    tlsRaw := tlsRaw.map jsAsString,
    query :=
      (match queryRaw with
       | some q => if q = [] then none else some (parseQuery q)
       | none => none),
    rawBase64 := if payloadRaw = [] then none else some payloadRaw,
    rawJsonText := if jsonRawUsed = [] then none else some jsonRawUsed,
    rawUrl := some rawUrl }

/-- The node construction of `VMessParser.parse` from the decoded JSON
object and the bookkeeping values of the payload decode, split out of
the parse body. -/
def vmessFromObj (rawUrl payloadRaw jsonRawUsed fragmentName : Str)
    (queryRaw : Option Str) (vmObj : List (Str × Json)) (ws1 : List Str) : ProxyNode :=
  let ps := jsTrim (jsAsStringO (jGet vmObj (str "ps")))
  let addChain := jGetNN vmObj (str "add") <|> jGetNN vmObj (str "server") <|>
    jGetNN vmObj (str "addr")
  let add := jsTrim (jsAsStringO addChain)
  let portNum0 := parseNumberishJ (jGet vmObj (str "port"))
  let portNum : Nat := portOrZeroInt portNum0
  let ws2 := ws1 ++
    (if portNum = 0 then
      [str "端口不合法：port=" ++ jsAsStringO (jGet vmObj (str "port"))] else [])
  let uuidWs := normalizeUuidVmess
    (jGetNN vmObj (str "id") <|> jGetNN vmObj (str "uuid")) ws2
  let uuid := uuidWs.1
  let alterIdRaw := jGetNN vmObj (str "aid") <|> jGetNN vmObj (str "alterId") <|>
    jGetNN vmObj (str "alterID")
  let alterId0 := parseNumberishJ alterIdRaw
  let alterId : Int :=
    match alterId0 with
    | some n => if n ≥ 0 then n else 0
    | none => 0
  let ws3 := uuidWs.2 ++
    (if alterIdRaw.isSome ∧ alterId0.isNone then
      [str "alterId 不合法：aid=" ++ jsAsStringO alterIdRaw ++ str "（已降级为 0）"] else [])
  let securityRaw := jGet vmObj (str "security")
  let securityStr := jsTrim (jsAsStringO securityRaw)
  let isSecurityTls := isTlsToken securityStr
  let cipherRaw := jGetNN vmObj (str "scy") <|> jGetNN vmObj (str "cipher") <|>
    (if ¬ isSecurityTls ∧ securityStr ≠ [] then securityRaw else none)
  let cipher := let c := jsTrim (jsAsStringO cipherRaw); if c = [] then str "auto" else c
  let ws4 := ws3 ++ (if add = [] then [str "缺少服务器地址：add/server"] else [])
  let ws5 := ws4 ++
    (if uuid ≠ [] ∧ ¬ isUuid uuid then
      [str "UUID 校验失败：id 不是标准 UUID（已保留原值）"] else [])
  let name := jsTrim
    (if jsTrim fragmentName ≠ [] then jsTrim fragmentName
     else if ps ≠ [] then ps
     else if add ≠ [] then add
     else str "vmess")
  let tlsRaw := jGetNN vmObj (str "tls") <|>
    (if isSecurityTls then securityRaw else none) <|> jGetNN vmObj (str "tlsMode")
  let tlsMode := parseTlsMode tlsRaw
  let ws6 := ws5 ++
    (match tlsMode.unknown with
     | some u => [str "未知 tls 值：" ++ u ++ str "（已按 tls=false 处理）"]
     | none => [])
  let sni := trimOpt (jsAsStringO (jGetNN vmObj (str "sni") <|>
    jGetNN vmObj (str "servername") <|> jGetNN vmObj (str "serverName")))
  let alpn := parseAlpnVmess (jGet vmObj (str "alpn"))
  let hasTlsHints : Bool := sni.isSome || !alpn.isEmpty
  let tls0 : TlsRec :=
    { enabled := tlsMode.enabled, security := tlsMode.security,
      sni := sni, alpn := if alpn.isEmpty then none else some alpn }
  let tlsWs : TlsRec × List Str :=
    if ¬ tls0.enabled ∧ hasTlsHints then
      ({ tls0 with enabled := true, security := some (str "tls") },
       ws6 ++ [str "缺少或无法识别 tls/security，已根据 TLS 参数（sni/alpn）推断为 tls=true"])
    else (tls0, ws6)
  let ws7 := tlsWs.2 ++
    (if tlsWs.1.enabled ∧ tlsWs.1.security = some (str "reality") then
      [str "检测到 security=reality（VMess 通常不使用 Reality）：将按 tls=true 输出，Reality 细节仅保留在 extras"]
     else [])
  let netRaw := jGetNN vmObj (str "net") <|> jGetNN vmObj (str "network")
  let net0 := let n := lowerS (jsAsStringO netRaw); if n = [] then str "tcp" else n
  let headerType := lowerS (jsAsStringO (jGet vmObj (str "type")))
  let net1 := if net0 = str "tcp" ∧ headerType = str "http" then str "http" else net0
  let supported := [str "tcp", str "ws", str "grpc", str "http", str "h2"]
  let finalNetwork := if net1 ∈ supported then net1 else str "tcp"
  let ws8 := ws7 ++
    (if net1 ∉ supported ∧ net1 ≠ [] then
      [str "未支持的传输层 net=" ++ jsAsStringO netRaw ++ str "（Clash Meta 不支持 " ++
       net1 ++ str "，已降级为 tcp，原值保留在 extras）"]
     else [])
  let hostRaw := jsTrim (jsAsStringO (jGet vmObj (str "host")))
  let pathRaw := jsTrim (jsAsStringO (jGet vmObj (str "path")))
  let hostFirst :=
    if hostRaw ≠ [] then
      ((((splitOnC 44 hostRaw).map jsTrim).filter (· ≠ [])).head?).getD []
    else []
  let transport : TransportRec :=
    if finalNetwork = str "ws" then
      { network := finalNetwork,
        ws := some
          { path := if pathRaw = [] then str "/" else pathRaw,
            host := if hostFirst = [] then none else some hostFirst } }
    else if finalNetwork = str "grpc" then
      let serviceName :=
        let s := jsTrim (jsAsStringO (jGetNN vmObj (str "serviceName") <|>
          jGetNN vmObj (str "servicename") <|> jGetNN vmObj (str "service-name")))
        if s = [] then pathRaw else s
      { network := finalNetwork,
        grpc := some
          { serviceName := if serviceName = [] then none else some serviceName,
            mode := if headerType = [] then none else some headerType } }
    else if finalNetwork = str "http" then
      { network := finalNetwork,
        http := some
          { path := if pathRaw = [] then str "/" else pathRaw,
            host := if hostFirst = [] then none else some hostFirst } }
    else if finalNetwork = str "h2" then
      { network := finalNetwork,
        h2 := some
          { path := if pathRaw = [] then str "/" else pathRaw,
            host := if hostRaw = [] then none else some hostRaw } }
    else { network := finalNetwork }
  let extras : Extras := vmessExtras vmObj addChain alterIdRaw netRaw tlsRaw
    queryRaw payloadRaw jsonRawUsed rawUrl ps hostRaw pathRaw
  { source := str "vmess", type := str "vmess", name := name, server := add,
    port := portNum, uuid := some uuid, alterId := some alterId,
    cipher := some cipher, tls := some tlsWs.1, transport := some transport,
    extras := extras, warnings := ws8 }

/-- Model of `VMessParser.parse` (vmess-parser.js). -/
def vmessParse (url : Str) : ProxyNode :=
  let rawUrl := jsTrim url
  if rawUrl = [] then
    { source := str "vmess", type := str "vmess", name := str "vmess", server := [],
      port := 0, uuid := some [],
      extras := { rawUrl := some [] }, warnings := [str "输入为空，无法解析 VMess"] }
  else
    let m : Option (Str × Str) :=
      match matchScheme rawUrl with
      | some (sch, rest) =>
        if [47, 47].isPrefixOf rest then some (sch, rest.drop 2) else none
      | none => none
    let scheme : Option Str := m.map (·.1)
    let ws0 : List Str :=
      if scheme.isSome ∧ lowerO scheme ≠ str "vmess" then
        [str "scheme 不是 vmess（当前为 " ++ asStringO scheme ++ str "），仍尝试按 VMess 解析"]
      else []
    let afterScheme :=
      match m with
      | some (_, rest) => rest
      | none =>
        let s1 := if jsToLower (rawUrl.take 6) = str "vmess:" then rawUrl.drop 6 else rawUrl
        if [47, 47].isPrefixOf s1 then s1.drop 2 else s1
    let hashIdx := idxOfC? 35 afterScheme
    let beforeHash :=
      match hashIdx with
      | some i => afterScheme.take i
      | none => afterScheme
    let fragmentRaw := hashIdx.map (fun i => afterScheme.drop (i + 1))
    let qIdx := idxOfC? 63 beforeHash
    let payloadRaw0 :=
      match qIdx with
      | some i => beforeHash.take i
      | none => beforeHash
    let queryRaw := qIdx.map (fun i => beforeHash.drop (i + 1))
    let fragmentName := safeDecodeURIComponent (asStringO fragmentRaw)
    let payloadRaw := safeDecodeURIComponent payloadRaw0
    let decoded := base64DecodeUtf8 payloadRaw
    let jsonWs : Str × List Str :=
      match decoded with
      | none =>
        let maybeJson := jsTrim payloadRaw
        if maybeJson.head? = some 123 ∧ maybeJson.getLast? = some 125 then
          (maybeJson, ws0 ++ [str "vmess:// 内容不是 Base64：检测到直接 JSON，已按 JSON 解析"])
        else ([], ws0 ++ [str "Base64 解码失败：vmess:// payload 非法"])
      | some d => (jsTrim d, ws0)
    let pj := parseJsonLoosely jsonWs.1 jsonWs.2
    vmessFromObj rawUrl payloadRaw pj.2.1 fragmentName queryRaw (pj.1.getD []) pj.2.2

/-- Model of the trojan-parser `parseAlpn` (splits on `,` only). -/
def parseAlpnTrojan (v : Option QVal) : List Str :=
  match v with
  | none => []
  | some (QVal.arr vs) => (vs.map jsTrim).filter (· ≠ [])
  | some (QVal.s s0) =>
    let s := jsTrim s0
    if s = [] then []
    else ((splitOnC 44 s).map jsTrim).filter (· ≠ [])

/-- Model of the `parseAlpn` copy shared by the tuic / hysteria /
hysteria2 parsers (splits on `,` or `|`); those parsers only ever pass
it a query-parameter string or `null`. -/
def parseAlpnQ (v : Option Str) : List Str :=
  match v with
  | none => []
  | some s0 =>
    let s := jsTrim s0
    if s = [] then []
    else ((splitOnP (fun c => c = 44 || c = 124) s).map jsTrim).filter (· ≠ [])

/-- Model of the `parsePositiveInt` copy shared by the tuic / hysteria /
hysteria2 parsers on a query-parameter string: `none` models `NaN`. -/
def parsePositiveInt (o : Option Str) : Option Int :=
  let s := jsTrim (asStringO o)
  if s = [] then none
  else
    let r :=
      match s with
      | 43 :: rr => rr
      | rr => rr
    if r ≠ [] ∧ r.all isDigitC then
      let n := natDecVal r
      if n > 0 then some (n : Int) else none
    else none

/-- Model of `tryParseJsonObject` (hysteria-parser.js). -/
def tryParseJsonObject (text : Str) : Option (List (Str × Json)) :=
  let s := jsTrim text
  if s = [] then none
  else if ¬ (s.head? = some 123 ∧ s.getLast? = some 125) then none
  else
    match jsonParseStrict s with
    | some (Json.obj f) => some f
    | _ => none

/-- Model of `TrojanParser.parse` (trojan-parser.js). -/
def trojanParse (url : Str) : ProxyNode :=
  let rawUrl := jsTrim url
  if rawUrl = [] then
    { source := str "trojan", type := str "trojan", name := str "trojan",
      server := [], port := 0, password := some [],
      extras := { rawUrl := some [] },
      warnings := [str "输入为空，无法解析 Trojan"] }
  else
    let u := splitUrlLoosely rawUrl
    let ws0 : List Str :=
      if lowerO u.scheme ≠ [] ∧ lowerO u.scheme ≠ str "trojan" then
        [str "scheme 不是 trojan（当前为 " ++ asStringO u.scheme ++ str "），仍尝试按 Trojan 解析"]
      else []
    let nameFromFrag :=
      match u.fragment with
      | some f => jsTrim (safeDecodeURIComponent f)
      | none => []
    let queryObj := parseQuery (asStringO u.query)
    let a := parseAuthority (asStringO u.authority)
    let password := jsTrim (safeDecodeURIComponent (asStringO a.userinfo))
    let server := jsTrim (safeDecodeURIComponent (asStringO a.host))
    let portNum := portOrZeroNat a.port
    let ws1 := ws0 ++ (if password = [] then [str "缺少密码：password（userinfo）"] else [])
    let ws2 := ws1 ++ (if server = [] then [str "缺少服务器地址：server"] else [])
    let ws3 := ws2 ++
      (if portNum = 0 then
        [str "端口不合法：port=" ++ asStringO (a.port.map natToDecStr)] else [])
    let name :=
      if nameFromFrag ≠ [] then nameFromFrag
      else if server ≠ [] then server
      else str "trojan"
    let security := lowerO (getFirstParam queryObj (str "security"))
    let sni := trimOpt (asStringO (getFirstParam queryObj (str "sni") <|>
      getFirstParam queryObj (str "peer")))
    let alpn := parseAlpnTrojan (qGet queryObj (str "alpn"))
    let allowInsecure := parseBooleanish (getFirstParam queryObj (str "allowInsecure") <|>
      getFirstParam queryObj (str "insecure"))
    let tlsEnabled : Bool :=
      ¬ (security = str "none" ∨ security = str "false" ∨ security = str "0" ∨
         security = str "off")
    let ws4 := ws3 ++
      (if ¬ tlsEnabled then
        [str "security 指定为 none/false：Trojan 通常要求 TLS，已按输入禁用 tls"] else [])
    let tls : TlsRec :=
      { enabled := tlsEnabled,
        security := if tlsEnabled then some (str "tls") else none,
        sni := sni,
        alpn := if alpn.isEmpty then none else some alpn,
        insecure := if allowInsecure then some true else none }
    let typeRaw := getFirstParam queryObj (str "type")
    let network0 := let n := lowerO typeRaw; if n = [] then str "tcp" else n
    let supported := [str "tcp", str "ws", str "grpc"]
    let network := if network0 ∈ supported then network0 else str "tcp"
    let ws5 := ws4 ++
      (if network0 ∉ supported ∧ network0 ≠ [] then
        [str "未支持的传输层 type=" ++ asStringO typeRaw ++ str "，已降级为 tcp"] else [])
    let transport : TransportRec :=
      if network = str "ws" then
        { network := network,
          ws := some
            { path :=
                (let p := jsTrim (asStringO (getFirstParam queryObj (str "path")))
                 if p = [] then str "/" else p),
              host := trimOpt (asStringO (getFirstParam queryObj (str "host"))) } }
      else if network = str "grpc" then
        { network := network,
          grpc := some
            { serviceName := trimOpt (asStringO (getFirstParam queryObj (str "serviceName"))),
              mode := trimOpt (asStringO (getFirstParam queryObj (str "mode"))) } }
      else { network := network }
    { source := str "trojan", type := str "trojan", name := name, server := server,
      port := portNum, password := some password, tls := some tls,
      transport := some transport,
      extras := { query := some queryObj, rawUrl := some rawUrl },
      warnings := ws5 }

/-- Model of `HysteriaParser.parse` (hysteria-parser.js). -/
def hysteriaParse (url : Str) : ProxyNode :=
  let rawUrl := jsTrim url
  if rawUrl = [] then
    { source := str "hysteria", type := str "hysteria", name := str "hysteria",
      server := [], port := 0, extras := { rawUrl := some [] },
      warnings := [str "输入为空，无法解析 Hysteria"] }
  else
    let u := splitUrlLoosely rawUrl
    let ws0 : List Str :=
      if lowerO u.scheme ≠ [] ∧ lowerO u.scheme ≠ str "hysteria" then
        [str "scheme 不是 hysteria（当前为 " ++ asStringO u.scheme ++ str "），仍尝试按 Hysteria 解析"]
      else []
    let nameFromFrag :=
      match u.fragment with
      | some f => jsTrim (safeDecodeURIComponent f)
      | none => []
    let queryObj := parseQuery (asStringO u.query)
    let authorityText :=
      match u.authority with
      | some a => a
      | none => u.path
    let a := parseAuthority authorityText
    let server := jsTrim (safeDecodeURIComponent (asStringO a.host))
    let portNum := portOrZeroNat a.port
    let ws1 := ws0 ++ (if server = [] then [str "缺少服务器地址：server"] else [])
    let ws2 := ws1 ++
      (if portNum = 0 then
        [str "端口不合法：port=" ++ asStringO (a.port.map natToDecStr)] else [])
    let authFromUserinfo := jsTrim (safeDecodeURIComponent (asStringO a.userinfo))
    let authRaw :=
      let q := jsTrim (asStringO (getFirstParam queryObj (str "auth-str") <|>
        getFirstParam queryObj (str "auth_str") <|> getFirstParam queryObj (str "auth")))
      if q ≠ [] then q else authFromUserinfo
    let authRes : Str × Option (List (Str × Json)) × List Str :=
      if authRaw ≠ [] then
        match tryParseJsonObject authRaw with
        | some obj => ([], some obj, ws2 ++ [str "检测到 auth 为 JSON 对象：将输出到 Clash 的 auth 字段"])
        | none => (authRaw, none, ws2)
      else ([], none, ws2 ++ [str "缺少认证信息：auth-str/auth（query 或 userinfo）"])
    let authStr := authRes.1
    let authObj := authRes.2.1
    let ws3 := authRes.2.2
    let sni := trimOpt (asStringO (getFirstParam queryObj (str "sni") <|>
      getFirstParam queryObj (str "peer") <|> getFirstParam queryObj (str "servername")))
    let alpn := parseAlpnQ (getFirstParam queryObj (str "alpn"))
    let allowInsecure := parseBooleanish (getFirstParam queryObj (str "allowInsecure") <|>
      getFirstParam queryObj (str "insecure") <|>
      getFirstParam queryObj (str "skip-cert-verify"))
    let tls : TlsRec :=
      { enabled := true, security := some (str "tls"), sni := sni,
        alpn := if alpn.isEmpty then none else some alpn,
        insecure := if allowInsecure then some true else none }
    let obfs := jsTrim (asStringO (getFirstParam queryObj (str "obfs")))
    let recvWindowConn := parsePositiveInt (getFirstParam queryObj (str "recv-window-conn") <|>
      getFirstParam queryObj (str "recvWindowConn") <|>
      getFirstParam queryObj (str "recv_window_conn"))
    let recvWindow := parsePositiveInt (getFirstParam queryObj (str "recv-window") <|>
      getFirstParam queryObj (str "recvWindow") <|> getFirstParam queryObj (str "recv_window"))
    let disableMtuDiscovery := parseBooleanish
      (getFirstParam queryObj (str "disable-mtu-discovery") <|>
       getFirstParam queryObj (str "disableMtuDiscovery") <|>
       getFirstParam queryObj (str "disable_mtu_discovery"))
    let fastOpen := parseBooleanish (getFirstParam queryObj (str "fast-open") <|>
      getFirstParam queryObj (str "fastOpen") <|> getFirstParam queryObj (str "fastopen"))
    let smuxEnabled := parseBooleanish (getFirstParam queryObj (str "smux"))
    let name :=
      if nameFromFrag ≠ [] then nameFromFrag
      else if server ≠ [] then server
      else str "hysteria"
    { source := str "hysteria", type := str "hysteria", name := name, server := server,
      port := portNum, tls := some tls,
      authStr := if authStr = [] then none else some authStr,
      auth := authObj,
      obfs := if obfs = [] then none else some obfs,
      recvWindowConn := recvWindowConn,
      recvWindow := recvWindow,
      disableMtuDiscovery := if disableMtuDiscovery then some true else none,
      fastOpen := if fastOpen then some true else none,
      smux := if smuxEnabled then some { enabled := true } else none,
      extras := { query := some queryObj, rawUrl := some rawUrl },
      warnings := ws3 }

/-- Model of `Hysteria2Parser.parse` (hysteria2-parser.js). -/
def hysteria2Parse (url : Str) : ProxyNode :=
  let rawUrl := jsTrim url
  if rawUrl = [] then
    { source := str "hysteria2", type := str "hysteria2", name := str "hysteria2",
      server := [], port := 0, password := some [],
      extras := { rawUrl := some [] },
      warnings := [str "输入为空，无法解析 Hysteria2"] }
  else
    let u := splitUrlLoosely rawUrl
    let sc := lowerO u.scheme
    let ws0 : List Str :=
      if sc ≠ [] ∧ sc ≠ str "hysteria2" ∧ sc ≠ str "hy2" then
        [str "scheme 不是 hysteria2/hy2（当前为 " ++ asStringO u.scheme ++
         str "），仍尝试按 Hysteria2 解析"]
      else []
    let nameFromFrag :=
      match u.fragment with
      | some f => jsTrim (safeDecodeURIComponent f)
      | none => []
    let queryObj := parseQuery (asStringO u.query)
    let authorityText :=
      match u.authority with
      | some a => a
      | none => u.path
    let a := parseAuthority authorityText
    let server := jsTrim (safeDecodeURIComponent (asStringO a.host))
    let portNum := portOrZeroNat a.port
    let passwordFromUserinfo := jsTrim (safeDecodeURIComponent (asStringO a.userinfo))
    let passwordFromQuery := jsTrim (asStringO (getFirstParam queryObj (str "password") <|>
      getFirstParam queryObj (str "auth") <|> getFirstParam queryObj (str "passwd")))
    let password := jsTrim
      (if passwordFromUserinfo ≠ [] then passwordFromUserinfo
       else if passwordFromQuery ≠ [] then passwordFromQuery
       else [])
    let ws1 := ws0 ++ (if server = [] then [str "缺少服务器地址：server"] else [])
    let ws2 := ws1 ++
      (if portNum = 0 then
        [str "端口不合法：port=" ++ asStringO (a.port.map natToDecStr)] else [])
    let ws3 := ws2 ++
      (if password = [] then
        [str "缺少认证信息：password（userinfo 或 query:password/auth）"] else [])
    let name :=
      if nameFromFrag ≠ [] then nameFromFrag
      else if server ≠ [] then server
      else str "hysteria2"
    let sni := trimOpt (asStringO (getFirstParam queryObj (str "sni") <|>
      getFirstParam queryObj (str "peer") <|> getFirstParam queryObj (str "servername")))
    let alpn := parseAlpnQ (getFirstParam queryObj (str "alpn"))
    let allowInsecure := parseBooleanish (getFirstParam queryObj (str "allowInsecure") <|>
      getFirstParam queryObj (str "insecure") <|>
      getFirstParam queryObj (str "skip-cert-verify"))
    let tls : TlsRec :=
      { enabled := true, security := some (str "tls"), sni := sni,
        alpn := if alpn.isEmpty then none else some alpn,
        insecure := if allowInsecure then some true else none }
    let obfs := jsTrim (asStringO (getFirstParam queryObj (str "obfs")))
    let obfsPassword := jsTrim (asStringO (getFirstParam queryObj (str "obfs-password") <|>
      getFirstParam queryObj (str "obfsPassword") <|>
      getFirstParam queryObj (str "obfs_passwd")))
    let fastOpen := parseBooleanish (getFirstParam queryObj (str "fast-open") <|>
      getFirstParam queryObj (str "fastOpen") <|> getFirstParam queryObj (str "fastopen"))
    let recvWindowConn := parsePositiveInt (getFirstParam queryObj (str "recv-window-conn") <|>
      getFirstParam queryObj (str "recvWindowConn") <|>
      getFirstParam queryObj (str "recv_window_conn"))
    let recvWindow := parsePositiveInt (getFirstParam queryObj (str "recv-window") <|>
      getFirstParam queryObj (str "recvWindow") <|> getFirstParam queryObj (str "recv_window"))
    let maxConn := parsePositiveInt (getFirstParam queryObj (str "max-conn") <|>
      getFirstParam queryObj (str "maxConn") <|> getFirstParam queryObj (str "max_conn"))
    let smuxEnabled := parseBooleanish (getFirstParam queryObj (str "smux"))
    { source := str "hysteria2", type := str "hysteria2", name := name, server := server,
      port := portNum, password := some password, tls := some tls,
      obfs := if obfs = [] then none else some obfs,
      obfsPassword := if obfsPassword = [] then none else some obfsPassword,
      fastOpen := if fastOpen then some true else none,
      recvWindowConn := recvWindowConn,
      recvWindow := recvWindow,
      maxConn := maxConn,
      smux := if smuxEnabled then some { enabled := true } else none,
      extras := { query := some queryObj, rawUrl := some rawUrl },
      warnings := ws3 }

/-- Model of `normalizeUuid` (tuic-parser.js). -/
def normalizeUuidTuic (uuidRaw : Str) (warnings : List Str) : Str × List Str :=
  let raw := jsTrim uuidRaw
  if raw = [] then ([], warnings ++ [str "缺少 uuid（userinfo 或 query）"])
  else if isUuid raw then (raw, warnings)
  else
    let d := jsTrim (asStringO (base64DecodeUtf8 raw))
    if d ≠ [] ∧ isUuid d then
      (d, warnings ++ [str "检测到非标准 Base64 UUID：已成功解码为标准 UUID"])
    else (raw, warnings ++ [str "uuid 不合法（已保留原值）"])

/-- Model of `TUICParser.parse` (tuic-parser.js). -/
def tuicParse (url : Str) : ProxyNode :=
  let rawUrl := jsTrim url
  if rawUrl = [] then
    { source := str "tuic", type := str "tuic", name := str "tuic",
      server := [], port := 0, uuid := some [], password := some [],
      extras := { rawUrl := some [] },
      warnings := [str "输入为空，无法解析 TUIC"] }
  else
    let u := splitUrlLoosely rawUrl
    let ws0 : List Str :=
      if lowerO u.scheme ≠ [] ∧ lowerO u.scheme ≠ str "tuic" then
        [str "scheme 不是 tuic（当前为 " ++ asStringO u.scheme ++ str "），仍尝试按 TUIC 解析"]
      else []
    let nameFromFrag :=
      match u.fragment with
      | some f => jsTrim (safeDecodeURIComponent f)
      | none => []
    let queryObj := parseQuery (asStringO u.query)
    let authorityText :=
      match u.authority with
      | some a => a
      | none => u.path
    let a := parseAuthority authorityText
    let server := jsTrim (safeDecodeURIComponent (asStringO a.host))
    let portNum := portOrZeroNat a.port
    let userinfo := jsTrim (safeDecodeURIComponent (asStringO a.userinfo))
    let uiSplit : Str × Str × List Str :=
      if userinfo ≠ [] then
        match idxOfC? 58 userinfo with
        | some idx =>
          (jsTrim (userinfo.take idx), jsTrim (userinfo.drop (idx + 1)), ws0)
        | none =>
          (jsTrim userinfo, [], ws0 ++ [str "TUIC userinfo 格式异常：期望 uuid:password"])
      else ([], [], ws0)
    let uuidRaw := uiSplit.1
    let passwordRaw := uiSplit.2.1
    let ws1 := uiSplit.2.2
    let uuidFromQuery := jsTrim (asStringO (getFirstParam queryObj (str "uuid")))
    let passwordFromQuery := jsTrim (asStringO (getFirstParam queryObj (str "password") <|>
      getFirstParam queryObj (str "pass")))
    let uuidWs := normalizeUuidTuic (if uuidRaw ≠ [] then uuidRaw else uuidFromQuery) ws1
    let uuid := uuidWs.1
    let password := jsTrim
      (if passwordRaw ≠ [] then passwordRaw
       else if passwordFromQuery ≠ [] then passwordFromQuery
       else [])
    let ws2 := uuidWs.2 ++ (if server = [] then [str "缺少服务器地址：server"] else [])
    let ws3 := ws2 ++
      (if portNum = 0 then
        [str "端口不合法：port=" ++ asStringO (a.port.map natToDecStr)] else [])
    let ws4 := ws3 ++ (if uuid = [] then [str "缺少或无效 uuid"] else [])
    let ws5 := ws4 ++ (if password = [] then [str "缺少 password"] else [])
    let name :=
      if nameFromFrag ≠ [] then nameFromFrag
      else if server ≠ [] then server
      else str "tuic"
    let sni := trimOpt (asStringO (getFirstParam queryObj (str "sni") <|>
      getFirstParam queryObj (str "peer") <|> getFirstParam queryObj (str "servername")))
    let alpn := parseAlpnQ (getFirstParam queryObj (str "alpn"))
    let allowInsecure := parseBooleanish (getFirstParam queryObj (str "allowInsecure") <|>
      getFirstParam queryObj (str "insecure") <|>
      getFirstParam queryObj (str "skip-cert-verify"))
    let tls : TlsRec :=
      { enabled := true, security := some (str "tls"), sni := sni,
        alpn := if alpn.isEmpty then none else some alpn,
        insecure := if allowInsecure then some true else none }
    let congestionController := jsTrim (asStringO
      (getFirstParam queryObj (str "congestion-controller") <|>
       getFirstParam queryObj (str "congestion_controller") <|>
       getFirstParam queryObj (str "congestionController")))
    let reduceRtt := parseBooleanish (getFirstParam queryObj (str "reduce-rtt") <|>
      getFirstParam queryObj (str "reduce_rtt") <|> getFirstParam queryObj (str "reduceRtt"))
    let requestTimeout := parsePositiveInt (getFirstParam queryObj (str "request-timeout") <|>
      getFirstParam queryObj (str "request_timeout") <|>
      getFirstParam queryObj (str "requestTimeout"))
    let maxUdpRelayPacketSize := parsePositiveInt
      (getFirstParam queryObj (str "max-udp-relay-packet-size") <|>
       getFirstParam queryObj (str "max_udp_relay_packet_size") <|>
       getFirstParam queryObj (str "maxUdpRelayPacketSize"))
    { source := str "tuic", type := str "tuic", name := name, server := server,
      port := portNum, uuid := some uuid, password := some password, tls := some tls,
      congestionController :=
        if congestionController = [] then none else some congestionController,
      reduceRtt := if reduceRtt then some true else none,
      requestTimeout := requestTimeout,
      maxUdpRelayPacketSize := maxUdpRelayPacketSize,
      extras := { query := some queryObj, rawUrl := some rawUrl },
      warnings := ws5 }

/-- Model of `parseQueryNoPlus` (ssr-parser.js): like `parseQuery` but
without the `+`-to-space replacement. -/
def parseQueryNoPlus (query : Str) : QueryObj :=
  let s :=
    match query with
    | 63 :: rest => rest
    | q => q
  if s = [] then []
  else
    (splitOnP (fun c => c = 38 || c = 59) s).foldl
      (fun acc part =>
        if part = [] then acc
        else
          let (kRaw, vRaw) :=
            match idxOfC? 61 part with
            | some eq => (part.take eq, part.drop (eq + 1))
            | none => (part, [])
          let k := safeDecodeURIComponent kRaw
          let v := safeDecodeURIComponent vRaw
          if k = [] then acc else qInsert acc k v)
      []

/-- Model of `decodeBase64ToTextMaybe` (ssr-parser.js). -/
def decodeBase64ToTextMaybe (b64 : Str) (warnings : List Str) (label : Str) :
    Str × List Str :=
  let raw := jsTrim b64
  if raw = [] then ([], warnings)
  else
    match base64DecodeUtf8 raw with
    | none => (raw, warnings ++ [label ++ str " Base64 解码失败（已保留原值）"])
    | some d => (d, warnings)

/-- Main fields of a decoded SSR payload. -/
structure SsrMain where
  server : Str
  port : Nat
  protocol : Str
  method : Str
  obfs : Str
  passwordB64 : Str

/-- Model of `parseSsrMain` (ssr-parser.js): right-to-left split of the
`server:port:protocol:method:obfs:Base64(password)` body; a missing
separator takes the degraded (caught-throw) path. -/
def parseSsrMain (main : Str) (warnings : List Str) : SsrMain × List Str :=
  let s0 := jsTrim main
  if s0 = [] then
    (⟨[], 0, [], [], [], []⟩,
     warnings ++ [str "SSR 主体为空（Base64 解码后无 server:port:...）"])
  else
    match lastIdxOfC? 58 s0 with
    | none =>
      (⟨[], 0, [], [], [], []⟩, warnings ++
       [str "SSR 主体解析失败（已降级处理）：缺少分隔符 \x27:\x27（无法定位 password）"])
    | some i5 =>
      let passwordB64 := s0.drop (i5 + 1)
      let rest4 := s0.take i5
      match lastIdxOfC? 58 rest4 with
      | none =>
        (⟨[], 0, [], [], [], []⟩, warnings ++
         [str "SSR 主体解析失败（已降级处理）：缺少分隔符 \x27:\x27（无法定位 obfs）"])
      | some i4 =>
        let obfs := rest4.drop (i4 + 1)
        let rest3 := rest4.take i4
        match lastIdxOfC? 58 rest3 with
        | none =>
          (⟨[], 0, [], [], [], []⟩, warnings ++
           [str "SSR 主体解析失败（已降级处理）：缺少分隔符 \x27:\x27（无法定位 method）"])
        | some i3 =>
          let method := rest3.drop (i3 + 1)
          let rest2 := rest3.take i3
          match lastIdxOfC? 58 rest2 with
          | none =>
            (⟨[], 0, [], [], [], []⟩, warnings ++
             [str "SSR 主体解析失败（已降级处理）：缺少分隔符 \x27:\x27（无法定位 protocol）"])
          | some i2 =>
            let protocol := rest2.drop (i2 + 1)
            let rest1 := rest2.take i2
            match lastIdxOfC? 58 rest1 with
            | none =>
              (⟨[], 0, [], [], [], []⟩, warnings ++
               [str "SSR 主体解析失败（已降级处理）：缺少分隔符 \x27:\x27（无法定位 port）"])
            | some i1 =>
              let portRaw := rest1.drop (i1 + 1)
              let server := rest1.take i1
              let pn := jsParseIntDec (jsTrim portRaw)
              let port := portOrZeroInt pn
              let ws' := warnings ++
                (if port = 0 then [str "端口不合法：port=" ++ portRaw] else [])
              (⟨jsTrim server, port, jsTrim protocol, jsTrim method, jsTrim obfs,
                jsTrim passwordB64⟩, ws')

/-- Drop trailing `/` characters (`replace(/\/+$/g, "")`). -/
def stripTrailSlashes (s : Str) : Str := (s.reverse.dropWhile (· = 47)).reverse

/-- Extras construction of `SSRParser.parse`, split out of the parse
body (field for field the object literal of the source). -/
def ssrExtras (remarks group queryPart rawUrl payloadRaw decodedText : Str)
    (queryObj : QueryObj) : Extras :=
  { remarks := if remarks = [] then none else some remarks,
    group := if group = [] then none else some group,
    query := some queryObj,
    rawUrl := some rawUrl,
    rawBase64 := some payloadRaw,
    rawDecodedText := some decodedText,
    rawInnerQuery := if queryPart = [] then none else some queryPart }

/-- The node construction of `SSRParser.parse` from the non-empty
decoded payload text, split out of the parse body. -/
def ssrFromDecoded (rawUrl payloadRaw decodedText : Str)
    (fragment : Option Str) (ws0 : List Str) : ProxyNode :=
  let mq : Str × Str :=
    match idxOfSub? (str "/?") decodedText with
    | some idx => (decodedText.take idx, decodedText.drop (idx + 2))
    | none =>
      match idxOfC? 63 decodedText with
      | some q2 =>
        (stripTrailSlashes (decodedText.take q2), decodedText.drop (q2 + 1))
      | none => (stripTrailSlashes decodedText, [])
  let mainPart := mq.1
  let queryPart := mq.2
  let mainWs := parseSsrMain mainPart ws0
  let mp := mainWs.1
  let ws1 := mainWs.2
  let serverRaw := jsTrim (safeDecodeURIComponent mp.server)
  let server :=
    if serverRaw.head? = some 91 ∧ serverRaw.getLast? = some 93 then
      (serverRaw.drop 1).dropLast
    else serverRaw
  let port := mp.port
  let protocol := jsTrim mp.protocol
  let method := jsTrim mp.method
  let obfs := jsTrim mp.obfs
  let pwWs := decodeBase64ToTextMaybe mp.passwordB64 ws1 (str "password")
  let password := jsTrim pwWs.1
  let ws2 := pwWs.2
  let ws3 := ws2 ++ (if server = [] then [str "缺少服务器地址：server"] else [])
  let ws4 := ws3 ++ (if port = 0 then [str "缺少或无效端口：port"] else [])
  let ws5 := ws4 ++ (if method = [] then [str "缺少加密方法：cipher/method"] else [])
  let ws6 := ws5 ++ (if password = [] then [str "缺少密码：password"] else [])
  let ws7 := ws6 ++ (if protocol = [] then [str "缺少 protocol"] else [])
  let ws8 := ws7 ++ (if obfs = [] then [str "缺少 obfs"] else [])
  let remarksB64 := getRawQueryFirstParam (some queryPart) (str "remarks")
  let groupB64 := getRawQueryFirstParam (some queryPart) (str "group")
  let protoparamB64 := getRawQueryFirstParam (some queryPart) (str "protoparam")
  let obfsparamB64 := getRawQueryFirstParam (some queryPart) (str "obfsparam")
  let rmWs : Str × List Str :=
    match remarksB64 with
    | some b =>
      if b ≠ [] then
        let r := decodeBase64ToTextMaybe b ws8 (str "remarks")
        (jsTrim r.1, r.2)
      else ([], ws8)
    | none => ([], ws8)
  let remarks := rmWs.1
  let grWs : Str × List Str :=
    match groupB64 with
    | some b =>
      if b ≠ [] then
        let r := decodeBase64ToTextMaybe b rmWs.2 (str "group")
        (jsTrim r.1, r.2)
      else ([], rmWs.2)
    | none => ([], rmWs.2)
  let group := grWs.1
  let ppWs : Str × List Str :=
    match protoparamB64 with
    | some b =>
      if b ≠ [] then
        let r := decodeBase64ToTextMaybe b grWs.2 (str "protoparam")
        (jsTrim r.1, r.2)
      else ([], grWs.2)
    | none => ([], grWs.2)
  let protocolParam := ppWs.1
  let opWs : Str × List Str :=
    match obfsparamB64 with
    | some b =>
      if b ≠ [] then
        let r := decodeBase64ToTextMaybe b ppWs.2 (str "obfsparam")
        (jsTrim r.1, r.2)
      else ([], ppWs.2)
    | none => ([], ppWs.2)
  let obfsParam := opWs.1
  let nameFromFrag :=
    match fragment with
    | some f => jsTrim (safeDecodeURIComponent f)
    | none => []
  let name :=
    if nameFromFrag ≠ [] then nameFromFrag
    else if remarks ≠ [] then remarks
    else if server ≠ [] then server
    else str "ssr"
  let queryObj := if queryPart ≠ [] then parseQueryNoPlus queryPart else []
  { source := str "ssr", type := str "ssr", name := name, server := server,
    port := port, cipher := some method, password := some password,
    protocol := some protocol,
    protocolParam := if protocolParam = [] then none else some protocolParam,
    obfs := some obfs,
    obfsParam := if obfsParam = [] then none else some obfsParam,
    extras := ssrExtras remarks group queryPart rawUrl payloadRaw decodedText queryObj,
    warnings := opWs.2 }

/-- Model of `SSRParser.parse` (ssr-parser.js). -/
def ssrParse (url : Str) : ProxyNode :=
  let rawUrl := jsTrim url
  if rawUrl = [] then
    { source := str "ssr", type := str "ssr", name := str "ssr", server := [],
      port := 0, cipher := some [], password := some [], protocol := some [],
      obfs := some [], extras := { rawUrl := some [] },
      warnings := [str "输入为空，无法解析 SSR"] }
  else
    let u := splitUrlLoosely rawUrl
    let ws0 : List Str :=
      if lowerO u.scheme ≠ [] ∧ lowerO u.scheme ≠ str "ssr" then
        [str "scheme 不是 ssr（当前为 " ++ asStringO u.scheme ++ str "），仍尝试按 SSR 解析"]
      else []
    let payloadRaw := jsTrim (safeDecodeURIComponent
      (match u.authority with
       | some a => a
       | none => u.path))
    if payloadRaw = [] then
      { source := str "ssr", type := str "ssr", name := str "ssr", server := [],
        port := 0, cipher := some [], password := some [], protocol := some [],
        obfs := some [],
        extras := { rawUrl := some rawUrl, rawBase64 := some [] },
        warnings := ws0 ++ [str "SSR payload 为空（缺少 Base64 主体）"] }
    else
      match base64DecodeUtf8 payloadRaw with
      | none =>
        { source := str "ssr", type := str "ssr", name := str "ssr", server := [],
          port := 0, cipher := some [], password := some [], protocol := some [],
          obfs := some [],
          extras := { rawUrl := some rawUrl, rawBase64 := some payloadRaw },
          warnings := ws0 ++ [str "SSR Base64 解码失败：payload 非法"] }
      | some decoded =>
        let decodedText := jsTrim decoded
        if decodedText = [] then
          { source := str "ssr", type := str "ssr", name := str "ssr", server := [],
            port := 0, cipher := some [], password := some [], protocol := some [],
            obfs := some [],
            extras := { rawUrl := some rawUrl, rawBase64 := some payloadRaw,
                        rawDecodedText := some [] },
            warnings := ws0 ++ [str "SSR Base64 解码后为空"] }
        else
          ssrFromDecoded rawUrl payloadRaw decodedText u.fragment ws0

/-- The converters' target record: a Clash proxy object, modelled as
its key/value list in insertion order. -/
abbrev ClashProxy := List (Str × Json)

/-- JS object assignment: overwrite in place, else append. -/
def oSet (o : ClashProxy) (k : Str) (v : Json) : ClashProxy :=
  match o with
  | [] => [(k, v)]
  | (k', v') :: rest => if k' = k then (k', v) :: rest else (k', v') :: oSet rest k v

/-- Integer JSON value. -/
def jnum (n : Int) : Json := Json.num true n (intToDecStr n)

/-- `name.trim() || dflt`. -/
def nameOr (name : Str) (dflt : Str) : Str :=
  let t := jsTrim name
  if t = [] then dflt else t

/-- `alpn.map(asString).filter(Boolean)` as a JSON array. -/
def alpnJson (alpn : List Str) : Json := Json.arr ((alpn.filter (· ≠ [])).map Json.str)

/-- The common TLS-option block of the converters: append `sni`, `alpn`
and `skip-cert-verify` when present. -/
def tlsOptsCommon (out : ClashProxy) (tls : Option TlsRec) : ClashProxy :=
  let sni := jsTrim (asStringO (tls.bind (·.sni)))
  let out1 := if sni ≠ [] then oSet out (str "sni") (Json.str sni) else out
  let alpn := (tls.bind (·.alpn)).getD []
  let out2 := if ¬ alpn.isEmpty then oSet out1 (str "alpn") (alpnJson alpn) else out1
  let insecure := (tls.bind (·.insecure)).getD false
  if insecure then oSet out2 (str "skip-cert-verify") (Json.bool true) else out2

/-- The ws/http `{path, headers:{Host}}` option object shared by the
vless/vmess/trojan converters. -/
def pathHostOptsJson (opts : Option PathHostOpts) : List (Str × Json) :=
  let path := jsTrim ((opts.map (·.path)).getD [])
  let hostHeader := jsTrim (asStringO (opts.bind (·.host)))
  (if path ≠ [] then [(str "path", Json.str path)] else []) ++
  (if hostHeader ≠ [] then
    [(str "headers", Json.obj [(str "Host", Json.str hostHeader)])] else [])

/-- The grpc `{grpc-service-name, mode}` option object shared by the
vless/vmess/trojan converters. -/
def grpcOptsJson (opts : Option GrpcOpts) : List (Str × Json) :=
  let serviceName := jsTrim (asStringO (opts.bind (·.serviceName)))
  let mode := jsTrim (asStringO (opts.bind (·.mode)))
  (if serviceName ≠ [] then [(str "grpc-service-name", Json.str serviceName)] else []) ++
  (if mode ≠ [] then [(str "mode", Json.str mode)] else [])

/-- The `smux` passthrough of the trojan/hysteria/hysteria2 converters
(`isPlainObject(smux) && Object.keys(smux).length`). -/
def smuxJson (smux : Option SmuxRec) : Option Json :=
  smux.map (fun s => Json.obj [(str "enabled", Json.bool s.enabled)])

/-- Model of `VLESSConverter.convert` (vless-converter.js).  The
`clientFingerprint` read of the source is always `undefined` on records
the parsers build, hence always skipped. -/
def vlessConvert (node : ProxyNode) : ClashProxy :=
  let name := nameOr node.name (str "vless")
  let server := jsTrim node.server
  let uuid := jsTrim (asStringO node.uuid)
  let out0 : ClashProxy :=
    [(str "name", Json.str name), (str "type", Json.str (str "vless")),
     (str "server", Json.str server), (str "port", jnum node.port),
     (str "uuid", Json.str uuid), (str "udp", Json.bool true)]
  let flow := jsTrim (asStringO node.extras.flow)
  let out1 := if flow ≠ [] then oSet out0 (str "flow") (Json.str flow) else out0
  let tlsEnabled : Bool :=
    (node.tls.map (·.enabled)).getD false ||
    jsTrim (asStringO (node.tls.bind (·.security))) = str "reality"
  let out2 := oSet out1 (str "tls") (Json.bool tlsEnabled)
  let out3 := tlsOptsCommon out2 node.tls
  let fingerprint := jsTrim (asStringO (node.tls.bind (·.fingerprint)))
  let out4 :=
    if fingerprint ≠ [] then oSet out3 (str "fingerprint") (Json.str fingerprint) else out3
  let pbk := jsTrim (asStringO (node.tls.bind (fun t => t.reality.bind (·.pbk))))
  let sid := jsTrim (asStringO (node.tls.bind (fun t => t.reality.bind (·.sid))))
  let out5 :=
    if pbk ≠ [] ∨ sid ≠ [] then
      let ro := (if pbk ≠ [] then [(str "public-key", Json.str pbk)] else []) ++
                (if sid ≠ [] then [(str "short-id", Json.str sid)] else [])
      oSet (oSet out4 (str "reality-opts") (Json.obj ro)) (str "tls") (Json.bool true)
    else out4
  let network := jsTrim (asStringO (node.transport.map (·.network)))
  let out6 :=
    if network ≠ [] ∧ network ≠ str "tcp" then
      oSet out5 (str "network") (Json.str network)
    else out5
  if network = str "ws" then
    let wsOpts := pathHostOptsJson (node.transport.bind (·.ws))
    if ¬ wsOpts.isEmpty then oSet out6 (str "ws-opts") (Json.obj wsOpts) else out6
  else if network = str "grpc" then
    let grpcOpts := grpcOptsJson (node.transport.bind (·.grpc))
    if ¬ grpcOpts.isEmpty then oSet out6 (str "grpc-opts") (Json.obj grpcOpts) else out6
  else if network = str "http" then
    let httpOpts := pathHostOptsJson (node.transport.bind (·.http))
    if ¬ httpOpts.isEmpty then oSet out6 (str "http-opts") (Json.obj httpOpts) else out6
  else out6

/-- Model of `VMessConverter.convert` (vmess-converter.js). -/
def vmessConvert (node : ProxyNode) : ClashProxy :=
  let name := nameOr node.name (str "vmess")
  let server := jsTrim node.server
  let uuid := jsTrim (asStringO node.uuid)
  let alterId : Int :=
    match node.alterId with
    | some n => if n ≥ 0 then n else 0
    | none => 0
  let cipher := let c := jsTrim (asStringO node.cipher); if c = [] then str "auto" else c
  let out0 : ClashProxy :=
    [(str "name", Json.str name), (str "type", Json.str (str "vmess")),
     (str "server", Json.str server), (str "port", jnum node.port),
     (str "uuid", Json.str uuid), (str "alterId", jnum alterId),
     (str "cipher", Json.str cipher), (str "udp", Json.bool true)]
  let tlsEnabled := (node.tls.map (·.enabled)).getD false
  let out1 := oSet out0 (str "tls") (Json.bool tlsEnabled)
  let sni := jsTrim (asStringO (node.tls.bind (·.sni)))
  let out2 := if sni ≠ [] then oSet out1 (str "sni") (Json.str sni) else out1
  let alpn := (node.tls.bind (·.alpn)).getD []
  let out3 := if ¬ alpn.isEmpty then oSet out2 (str "alpn") (alpnJson alpn) else out2
  let network := jsTrim (asStringO (node.transport.map (·.network)))
  let out4 :=
    if network ≠ [] ∧ network ≠ str "tcp" then
      oSet out3 (str "network") (Json.str network)
    else out3
  if network = str "ws" then
    let wsOpts := pathHostOptsJson (node.transport.bind (·.ws))
    if ¬ wsOpts.isEmpty then oSet out4 (str "ws-opts") (Json.obj wsOpts) else out4
  else if network = str "grpc" then
    let grpcOpts := grpcOptsJson (node.transport.bind (·.grpc))
    if ¬ grpcOpts.isEmpty then oSet out4 (str "grpc-opts") (Json.obj grpcOpts) else out4
  else if network = str "http" then
    let httpOpts := pathHostOptsJson (node.transport.bind (·.http))
    if ¬ httpOpts.isEmpty then oSet out4 (str "http-opts") (Json.obj httpOpts) else out4
  else if network = str "h2" then
    let h2 := node.transport.bind (·.h2)
    let path := jsTrim ((h2.map (·.path)).getD [])
    let hostRaw := jsTrim (asStringO (h2.bind (·.host)))
    let hosts :=
      if hostRaw ≠ [] then ((splitOnC 44 hostRaw).map jsTrim).filter (· ≠ []) else []
    let h2Opts := (if path ≠ [] then [(str "path", Json.str path)] else []) ++
      (if ¬ hosts.isEmpty then [(str "host", Json.arr (hosts.map Json.str))] else [])
    if ¬ h2Opts.isEmpty then oSet out4 (str "h2-opts") (Json.obj h2Opts) else out4
  else out4

/-- Model of `SSConverter.convert` helpers: `normalizePluginName`. -/
def normalizePluginName (raw : Str) : Str :=
  let p := jsTrim raw
  let pl := jsToLower p
  if p = [] then []
  else if pl = str "obfs-local" ∨ pl = str "simple-obfs" ∨ pl = str "obfs" then str "obfs"
  else if pl = str "v2ray-plugin" then str "v2ray-plugin"
  else p

/-- Plugin-option bag lookup. -/
def povGet (o : List (Str × POptVal)) (k : Str) : Option POptVal :=
  (o.find? (fun f => f.1 = k)).map (·.2)

/-- `String(v)` of a plugin-option value. -/
def povAsString : POptVal → Str
  | POptVal.flag => str "true"
  | POptVal.strv v => v

/-- `asString` of a possibly-missing plugin-option value. -/
def povAsStringO (o : Option POptVal) : Str :=
  match o with
  | none => []
  | some v => povAsString v

/-- A plugin-option value as a JSON value. -/
def povToJson : POptVal → Json
  | POptVal.flag => Json.bool true
  | POptVal.strv v => Json.str v

/-- Model of `buildPluginOpts` (ss-converter.js). -/
def buildPluginOpts (plugin : Str) (pluginOptsRaw : Option (List (Str × POptVal))) :
    Option Json :=
  let p := normalizePluginName plugin
  match pluginOptsRaw with
  | none => none
  | some opts =>
    if p = [] then none
    else if p = str "obfs" then
      let mode := jsTrim (povAsStringO (povGet opts (str "obfs") <|> povGet opts (str "mode")))
      let host := jsTrim (povAsStringO (povGet opts (str "obfs-host") <|> povGet opts (str "host")))
      let fields := (if mode ≠ [] then [(str "mode", Json.str mode)] else []) ++
                    (if host ≠ [] then [(str "host", Json.str host)] else [])
      if fields.isEmpty then none else some (Json.obj fields)
    else if p = str "v2ray-plugin" then
      let mode := jsTrim (povAsStringO (povGet opts (str "mode")))
      let host := jsTrim (povAsStringO (povGet opts (str "host")))
      let path := jsTrim (povAsStringO (povGet opts (str "path")))
      let tlsRaw := povGet opts (str "tls")
      let tls : Bool := tlsRaw = some POptVal.flag ||
        parseBooleanish (tlsRaw.map povAsString)
      let fields := (if mode ≠ [] then [(str "mode", Json.str mode)] else []) ++
                    (if tls then [(str "tls", Json.bool true)] else []) ++
                    (if host ≠ [] then [(str "host", Json.str host)] else []) ++
                    (if path ≠ [] then [(str "path", Json.str path)] else [])
      if fields.isEmpty then none else some (Json.obj fields)
    else some (Json.obj (opts.map (fun f => (f.1, povToJson f.2))))

/-- Model of `SSConverter.convert` (ss-converter.js).  The `?? method`
fallback of the source reads a `method` key no parser record carries,
hence it never fires on parser output. -/
def ssConvert (node : ProxyNode) : ClashProxy :=
  let name := nameOr node.name (str "ss")
  let server := jsTrim node.server
  let cipher := jsTrim (asStringO node.cipher)
  let password := jsTrim (asStringO node.password)
  let out0 : ClashProxy :=
    [(str "name", Json.str name), (str "type", Json.str (str "ss")),
     (str "server", Json.str server), (str "port", jnum node.port),
     (str "cipher", Json.str cipher), (str "password", Json.str password),
     (str "udp", Json.bool true)]
  let pluginRaw := jsTrim (asStringO node.plugin)
  let plugin := normalizePluginName pluginRaw
  let pluginOpts := buildPluginOpts pluginRaw node.pluginOpts
  let out1 := if plugin ≠ [] then oSet out0 (str "plugin") (Json.str plugin) else out0
  match pluginOpts with
  | some (Json.obj fields) =>
    if plugin ≠ [] ∧ ¬ fields.isEmpty then
      oSet out1 (str "plugin-opts") (Json.obj fields)
    else out1
  | _ => out1

/-- Model of `TrojanConverter.convert` (trojan-converter.js). -/
def trojanConvert (node : ProxyNode) : ClashProxy :=
  let name := nameOr node.name (str "trojan")
  let server := jsTrim node.server
  let password := jsTrim (asStringO node.password)
  let out0 : ClashProxy :=
    [(str "name", Json.str name), (str "type", Json.str (str "trojan")),
     (str "server", Json.str server), (str "port", jnum node.port),
     (str "password", Json.str password), (str "udp", Json.bool true)]
  let tlsEnabled := (node.tls.map (·.enabled)).getD false
  let out1 := oSet out0 (str "tls") (Json.bool tlsEnabled)
  let out2 := tlsOptsCommon out1 node.tls
  let network := jsTrim (asStringO (node.transport.map (·.network)))
  let out3 :=
    if network ≠ [] ∧ network ≠ str "tcp" then
      oSet out2 (str "network") (Json.str network)
    else out2
  let out4 :=
    if network = str "ws" then
      let wsOpts := pathHostOptsJson (node.transport.bind (·.ws))
      if ¬ wsOpts.isEmpty then oSet out3 (str "ws-opts") (Json.obj wsOpts) else out3
    else if network = str "grpc" then
      let grpcOpts := grpcOptsJson (node.transport.bind (·.grpc))
      if ¬ grpcOpts.isEmpty then oSet out3 (str "grpc-opts") (Json.obj grpcOpts) else out3
    else out3
  match smuxJson node.smux with
  | some s => oSet out4 (str "smux") s
  | none => out4

/-- Model of `Hysteria2Converter.convert` (hysteria2-converter.js). -/
def hysteria2Convert (node : ProxyNode) : ClashProxy :=
  let name := nameOr node.name (str "hysteria2")
  let server := jsTrim node.server
  let password := jsTrim (asStringO node.password)
  let out0 : ClashProxy :=
    [(str "name", Json.str name), (str "type", Json.str (str "hysteria2")),
     (str "server", Json.str server), (str "port", jnum node.port),
     (str "password", Json.str password), (str "udp", Json.bool true)]
  let out1 := tlsOptsCommon out0 node.tls
  let obfs := jsTrim (asStringO node.obfs)
  let out2 := if obfs ≠ [] then oSet out1 (str "obfs") (Json.str obfs) else out1
  let obfsPassword := jsTrim (asStringO node.obfsPassword)
  let out3 :=
    if obfsPassword ≠ [] then oSet out2 (str "obfs-password") (Json.str obfsPassword)
    else out2
  let out4 :=
    if node.fastOpen = some true then oSet out3 (str "fast-open") (Json.bool true) else out3
  let out5 :=
    match node.recvWindowConn with
    | some n => if n > 0 then oSet out4 (str "recv-window-conn") (jnum n) else out4
    | none => out4
  let out6 :=
    match node.recvWindow with
    | some n => if n > 0 then oSet out5 (str "recv-window") (jnum n) else out5
    | none => out5
  let out7 :=
    match node.maxConn with
    | some n => if n > 0 then oSet out6 (str "max-conn") (jnum n) else out6
    | none => out6
  match smuxJson node.smux with
  | some s => oSet out7 (str "smux") s
  | none => out7

/-- Model of `SSRConverter.convert` (ssr-converter.js). -/
def ssrConvert (node : ProxyNode) : ClashProxy :=
  let name := nameOr node.name (str "ssr")
  let server := jsTrim node.server
  let cipher := jsTrim (asStringO node.cipher)
  let password := jsTrim (asStringO node.password)
  let protocol := jsTrim (asStringO node.protocol)
  let obfs := jsTrim (asStringO node.obfs)
  let out0 : ClashProxy :=
    [(str "name", Json.str name), (str "type", Json.str (str "ssr")),
     (str "server", Json.str server), (str "port", jnum node.port),
     (str "cipher", Json.str cipher), (str "password", Json.str password),
     (str "protocol", Json.str protocol), (str "obfs", Json.str obfs),
     (str "udp", Json.bool true)]
  let protocolParam := jsTrim (asStringO node.protocolParam)
  let out1 :=
    if protocolParam ≠ [] then oSet out0 (str "protocol-param") (Json.str protocolParam)
    else out0
  let obfsParam := jsTrim (asStringO node.obfsParam)
  if obfsParam ≠ [] then oSet out1 (str "obfs-param") (Json.str obfsParam) else out1

/-- Model of `HysteriaConverter.convert` (hysteria-converter.js). -/
def hysteriaConvert (node : ProxyNode) : ClashProxy :=
  let name := nameOr node.name (str "hysteria")
  let server := jsTrim node.server
  let out0 : ClashProxy :=
    [(str "name", Json.str name), (str "type", Json.str (str "hysteria")),
     (str "server", Json.str server), (str "port", jnum node.port),
     (str "udp", Json.bool true)]
  let authStr := jsTrim (asStringO node.authStr)
  let out1 :=
    match node.auth with
    | some fields =>
      if ¬ fields.isEmpty then oSet out0 (str "auth") (Json.obj fields)
      else if authStr ≠ [] then oSet out0 (str "auth-str") (Json.str authStr)
      else out0
    | none => if authStr ≠ [] then oSet out0 (str "auth-str") (Json.str authStr) else out0
  let out2 := tlsOptsCommon out1 node.tls
  let obfs := jsTrim (asStringO node.obfs)
  let out3 := if obfs ≠ [] then oSet out2 (str "obfs") (Json.str obfs) else out2
  let out4 :=
    match node.recvWindowConn with
    | some n => if n > 0 then oSet out3 (str "recv-window-conn") (jnum n) else out3
    | none => out3
  let out5 :=
    match node.recvWindow with
    | some n => if n > 0 then oSet out4 (str "recv-window") (jnum n) else out4
    | none => out4
  let out6 :=
    if node.disableMtuDiscovery = some true then
      oSet out5 (str "disable-mtu-discovery") (Json.bool true)
    else out5
  let out7 :=
    if node.fastOpen = some true then oSet out6 (str "fast-open") (Json.bool true) else out6
  match smuxJson node.smux with
  | some s => oSet out7 (str "smux") s
  | none => out7

/-- Model of `TUICConverter.convert` (tuic-converter.js). -/
def tuicConvert (node : ProxyNode) : ClashProxy :=
  let name := nameOr node.name (str "tuic")
  let server := jsTrim node.server
  let uuid := jsTrim (asStringO node.uuid)
  let password := jsTrim (asStringO node.password)
  let out0 : ClashProxy :=
    [(str "name", Json.str name), (str "type", Json.str (str "tuic")),
     (str "server", Json.str server), (str "port", jnum node.port),
     (str "uuid", Json.str uuid), (str "password", Json.str password),
     (str "udp", Json.bool true)]
  let out1 := tlsOptsCommon out0 node.tls
  let cc := jsTrim (asStringO node.congestionController)
  let out2 := if cc ≠ [] then oSet out1 (str "congestion-controller") (Json.str cc) else out1
  let out3 :=
    if node.reduceRtt = some true then oSet out2 (str "reduce-rtt") (Json.bool true) else out2
  let out4 :=
    match node.requestTimeout with
    | some n => if n > 0 then oSet out3 (str "request-timeout") (jnum n) else out3
    | none => out3
  match node.maxUdpRelayPacketSize with
  | some n => if n > 0 then oSet out4 (str "max-udp-relay-packet-size") (jnum n) else out4
  | none => out4

/-- Result type of `parseProxyLink` (index.js): the
`{success:true, proxy, warnings}` / `{success:false, error}` union. -/
inductive PLResult where
  | ok (proxy : ClashProxy) (warnings : List Str)
  | err (msg : Str)

/-- The `PROTOCOL_ALIASES` table (index.js). -/
def protocolAliasMap (p : Str) : Str :=
  if p = str "hy2" then str "hysteria2"
  else if p = str "shadowsocks" then str "ss"
  else p

/-- Model of `normalizeProtocol` (index.js). -/
def normalizeProtocol (raw : Str) : Str := protocolAliasMap (jsToLower (jsTrim raw))

/-- The `parserMap` registry (index.js). -/
def parserFor (p : Str) : Option (Str → ProxyNode) :=
  if p = str "vless" then some vlessParse
  else if p = str "vmess" then some vmessParse
  else if p = str "ss" then some ssParse
  else if p = str "trojan" then some trojanParse
  else if p = str "hysteria2" then some hysteria2Parse
  else if p = str "ssr" then some ssrParse
  else if p = str "hysteria" then some hysteriaParse
  else if p = str "tuic" then some tuicParse
  else none

/-- The `converterMap` registry (index.js). -/
def converterFor (p : Str) : Option (ProxyNode → ClashProxy) :=
  if p = str "vless" then some vlessConvert
  else if p = str "vmess" then some vmessConvert
  else if p = str "ss" then some ssConvert
  else if p = str "trojan" then some trojanConvert
  else if p = str "hysteria2" then some hysteria2Convert
  else if p = str "ssr" then some ssrConvert
  else if p = str "hysteria" then some hysteriaConvert
  else if p = str "tuic" then some tuicConvert
  else none

/-- Model of `parseProxyLink` (index.js).  The defensive `try/catch`
around parser and converter is dead in this total embedding; the
`node?.warnings || []` fallback is the node's warning list (always an
array on parser output). -/
def parseProxyLink (link : Str) : PLResult :=
  let raw := jsTrim link
  if raw = [] then PLResult.err (str "无效的代理链接")
  else
    let proto := normalizeProtocol (beforeSub raw (str "://"))
    match parserFor proto, converterFor proto with
    | some pf, some cf =>
      let node := pf raw
      PLResult.ok (cf node) node.warnings
    | _, _ =>
      PLResult.err (str "不支持的协议: " ++ (if proto = [] then str "(unknown)" else proto))

/-- One entry of the batch `errors` array. -/
structure BatchError where
  line : Nat
  link : Str
  error : Str

/-- Result of `parseBatchProxyLinks`. -/
structure BatchResult where
  proxies : List ClashProxy
  errors : List BatchError

/-- `trimmed.length > 80 ? trimmed.slice(0,80) + "..." : trimmed`. -/
def truncLink (t : Str) : Str :=
  if t.length > 80 then t.take 80 ++ str "..." else t

/-- The indexed fold of `parseBatchProxyLinks` (`forEach` with 0-based
`index`, error lines reported as `index + 1`). -/
def batchGo (idx : Nat) : List Str → BatchResult
  | [] => { proxies := [], errors := [] }
  | line :: rest =>
    let r := batchGo (idx + 1) rest
    let t := jsTrim line
    if t = [] ∨ ¬ hasSub t (str "://") then r
    else
      match parseProxyLink t with
      | PLResult.ok p _ => { proxies := p :: r.proxies, errors := r.errors }
      | PLResult.err e =>
        { proxies := r.proxies,
          errors := { line := idx + 1, link := truncLink t, error := e } :: r.errors }

/-- Model of `parseBatchProxyLinks` (index.js) on an array argument. -/
def parseBatchProxyLinksList (lines : List Str) : BatchResult := batchGo 0 lines

/-- Model of `parseBatchProxyLinks` (index.js) on a string argument
(split on newlines). -/
def parseBatchProxyLinksStr (s : Str) : BatchResult :=
  parseBatchProxyLinksList (splitOnC 10 s)

/-! ### Lemmas and claim theorems -/

/-- The port invariant of the data model. -/
def PortOk (n : Nat) : Prop := n = 0 ∨ (1 ≤ n ∧ n ≤ 65535)

theorem portOk_zero : PortOk 0 := Or.inl rfl

/-- `parseHostPort` only ever produces a port in range. -/
theorem parseHostPort_port_valid (hp : Str) (host : Option Str) (port : Option Nat)
    (p : Nat) (h : parseHostPort hp = (host, port)) (hp2 : port = some p) :
    1 ≤ p ∧ p ≤ 65535 := by
  subst hp2
  unfold parseHostPort at h
  repeat' split at h
  all_goals simp_all [isPortNum, isPortNat]
  all_goals repeat' split at h
  all_goals simp_all
  all_goals omega

/-- `parseAuthority` only ever produces a port in range. -/
theorem parseAuthority_port_valid (a : Str) (p : Nat)
    (h : (parseAuthority a).port = some p) : 1 ≤ p ∧ p ≤ 65535 := by
  exact parseHostPort_port_valid _ _ _ p rfl h

/-- The `isPort(x) ? x : 0` gate on an authority port. -/
theorem portGate_ok (o : Option Nat) :
    PortOk (if isPortNum (o.map Int.ofNat) then o.getD 0 else 0) := by
  split
  · rcases o with _ | p
    · exact portOk_zero
    · rename_i hgate
      right
      simp [isPortNum] at hgate
      simp only [Option.getD_some]
      omega
  · exact portOk_zero

/-- Port of the `getD 0` fallback over an authority port. -/
theorem portGetD_ok (a : Str) : PortOk ((parseAuthority a).port.getD 0) := by
  rcases h : (parseAuthority a).port with _ | p
  · simp [PortOk]
  · have := parseAuthority_port_valid a p h
    simp [PortOk]
    omega

theorem portOrZeroNat_ok (o : Option Nat) : PortOk (portOrZeroNat o) := portGate_ok o

theorem portOrZeroInt_ok (o : Option Int) : PortOk (portOrZeroInt o) := by
  unfold portOrZeroInt
  split
  · rcases o with _ | n
    · simp [isPortNum] at *
    · rename_i hgate
      right
      simp [isPortNum] at hgate
      simp only [Option.getD_some]
      omega
  · exact portOk_zero

/-- `parseSsrMain` only ever produces a port `0` or in range. -/
theorem parseSsrMain_port_ok (m : Str) (ws : List Str) :
    PortOk ((parseSsrMain m ws).1).port := by
  unfold parseSsrMain
  dsimp only
  repeat' split
  all_goals first
    | with_reducible exact portOrZeroInt_ok _
    | with_reducible exact portOk_zero

/-- The SS main-shape computation only ever produces a port `0` or in range. -/
theorem ssMainResult_port_ok (a1 : AuthorityParts) (ws1 : List Str) :
    PortOk (ssMainResult a1 ws1).2.1 := by
  unfold ssMainResult
  dsimp only
  repeat' split
  all_goals first
    | with_reducible exact portOrZeroNat_ok _
    | with_reducible exact portOk_zero

/-- The VMess node builder only ever produces a port `0` or in range. -/
theorem vmessFromObj_port_ok (rawUrl payloadRaw jsonRawUsed fragmentName : Str)
    (queryRaw : Option Str) (vmObj : List (Str × Json)) (ws1 : List Str) :
    PortOk (vmessFromObj rawUrl payloadRaw jsonRawUsed fragmentName
      queryRaw vmObj ws1).port := by
  unfold vmessFromObj
  dsimp only
  with_reducible exact portOrZeroInt_ok _

theorem vlessParse_port_ok (s : Str) : PortOk (vlessParse s).port := by
  unfold vlessParse
  dsimp only
  with_reducible exact portGetD_ok _

theorem ssParse_port_ok (s : Str) : PortOk (ssParse s).port := by
  unfold ssParse
  dsimp only
  split
  · with_reducible exact portOk_zero
  · with_reducible exact ssMainResult_port_ok _ _

theorem vmessParse_port_ok (s : Str) : PortOk (vmessParse s).port := by
  unfold vmessParse
  dsimp only
  split
  · with_reducible exact portOk_zero
  · with_reducible exact vmessFromObj_port_ok _ _ _ _ _ _ _

theorem trojanParse_port_ok (s : Str) : PortOk (trojanParse s).port := by
  unfold trojanParse
  dsimp only
  split
  · with_reducible exact portOk_zero
  · with_reducible exact portOrZeroNat_ok _

theorem hysteriaParse_port_ok (s : Str) : PortOk (hysteriaParse s).port := by
  unfold hysteriaParse
  dsimp only
  split
  · with_reducible exact portOk_zero
  · with_reducible exact portOrZeroNat_ok _

theorem hysteria2Parse_port_ok (s : Str) : PortOk (hysteria2Parse s).port := by
  unfold hysteria2Parse
  dsimp only
  split
  · with_reducible exact portOk_zero
  · with_reducible exact portOrZeroNat_ok _

theorem tuicParse_port_ok (s : Str) : PortOk (tuicParse s).port := by
  unfold tuicParse
  dsimp only
  split
  · with_reducible exact portOk_zero
  · with_reducible exact portOrZeroNat_ok _

/-- The SSR node builder only ever produces a port `0` or in range. -/
theorem ssrFromDecoded_port_ok (rawUrl payloadRaw decodedText : Str)
    (fragment : Option Str) (ws0 : List Str) :
    PortOk (ssrFromDecoded rawUrl payloadRaw decodedText fragment ws0).port := by
  unfold ssrFromDecoded
  dsimp only
  with_reducible exact parseSsrMain_port_ok _ _

theorem ssrParse_port_ok (s : Str) : PortOk (ssrParse s).port := by
  unfold ssrParse
  dsimp only
  repeat' split
  all_goals first
    | with_reducible exact ssrFromDecoded_port_ok _ _ _ _ _
    | with_reducible exact portOk_zero

/-- C2: for every input string and every parser, the `port` field of the
returned record satisfies `port = 0 ∨ (1 ≤ port ∧ port ≤ 65535)`; its
`Nat` field type additionally rules out `NaN`, negative and fractional
values by construction. -/
theorem allParsers_port_invariant (s : Str) :
    PortOk (vlessParse s).port ∧ PortOk (vmessParse s).port ∧
    PortOk (ssParse s).port ∧ PortOk (trojanParse s).port ∧
    PortOk (hysteria2Parse s).port ∧ PortOk (ssrParse s).port ∧
    PortOk (hysteriaParse s).port ∧ PortOk (tuicParse s).port :=
  ⟨vlessParse_port_ok s, vmessParse_port_ok s, ssParse_port_ok s,
   trojanParse_port_ok s, hysteria2Parse_port_ok s, ssrParse_port_ok s,
   hysteriaParse_port_ok s, tuicParse_port_ok s⟩


/-! #### Shape lemmas: the `source`/`type` tags of every parser -/

theorem vmessFromObj_shape (rawUrl payloadRaw jsonRawUsed fragmentName : Str)
    (queryRaw : Option Str) (vmObj : List (Str × Json)) (ws1 : List Str) :
    (vmessFromObj rawUrl payloadRaw jsonRawUsed fragmentName queryRaw vmObj ws1).source
        = str "vmess" ∧
      (vmessFromObj rawUrl payloadRaw jsonRawUsed fragmentName queryRaw vmObj ws1).type
        = str "vmess" := by
  unfold vmessFromObj
  dsimp only
  refine ⟨?_, ?_⟩ <;> with_reducible rfl

theorem ssrFromDecoded_shape (rawUrl payloadRaw decodedText : Str)
    (fragment : Option Str) (ws0 : List Str) :
    (ssrFromDecoded rawUrl payloadRaw decodedText fragment ws0).source = str "ssr" ∧
      (ssrFromDecoded rawUrl payloadRaw decodedText fragment ws0).type = str "ssr" := by
  unfold ssrFromDecoded
  dsimp only
  refine ⟨?_, ?_⟩ <;> with_reducible rfl

theorem vlessParse_shape (s : Str) :
    (vlessParse s).source = str "vless" ∧ (vlessParse s).type = str "vless" := by
  unfold vlessParse
  dsimp only
  refine ⟨?_, ?_⟩ <;> with_reducible rfl

theorem vmessParse_shape (s : Str) :
    (vmessParse s).source = str "vmess" ∧ (vmessParse s).type = str "vmess" := by
  unfold vmessParse
  dsimp only
  split
  · refine ⟨?_, ?_⟩ <;> with_reducible rfl
  · with_reducible exact vmessFromObj_shape _ _ _ _ _ _ _

theorem ssParse_shape (s : Str) :
    (ssParse s).source = str "ss" ∧ (ssParse s).type = str "ss" := by
  unfold ssParse
  dsimp only
  split
  all_goals refine ⟨?_, ?_⟩ <;> with_reducible rfl

theorem trojanParse_shape (s : Str) :
    (trojanParse s).source = str "trojan" ∧ (trojanParse s).type = str "trojan" := by
  unfold trojanParse
  dsimp only
  split
  all_goals refine ⟨?_, ?_⟩ <;> with_reducible rfl

theorem hysteriaParse_shape (s : Str) :
    (hysteriaParse s).source = str "hysteria" ∧
      (hysteriaParse s).type = str "hysteria" := by
  unfold hysteriaParse
  dsimp only
  split
  all_goals refine ⟨?_, ?_⟩ <;> with_reducible rfl

theorem hysteria2Parse_shape (s : Str) :
    (hysteria2Parse s).source = str "hysteria2" ∧
      (hysteria2Parse s).type = str "hysteria2" := by
  unfold hysteria2Parse
  dsimp only
  split
  all_goals refine ⟨?_, ?_⟩ <;> with_reducible rfl

theorem tuicParse_shape (s : Str) :
    (tuicParse s).source = str "tuic" ∧ (tuicParse s).type = str "tuic" := by
  unfold tuicParse
  dsimp only
  split
  all_goals refine ⟨?_, ?_⟩ <;> with_reducible rfl

theorem ssrParse_shape (s : Str) :
    (ssrParse s).source = str "ssr" ∧ (ssrParse s).type = str "ssr" := by
  unfold ssrParse
  dsimp only
  repeat' split
  all_goals first
    | with_reducible exact ssrFromDecoded_shape _ _ _ _ _
    | refine ⟨?_, ?_⟩ <;> with_reducible rfl

/-- C1: on every input string each of the eight parsers returns a record
of the `ProxyNode` type — so `source`, `type`, `name`, `server`, `port`,
`extras` and `warnings` are all present by construction — whose
`source` and `type` fields carry the parser protocol tag; the parsers
are total Lean functions of the input (the embedding of "terminates
normally without throwing" for the source `try/catch` bodies). -/
theorem allParsers_total_shape (s : Str) :
    ((vlessParse s).source = str "vless" ∧ (vlessParse s).type = str "vless") ∧
    ((vmessParse s).source = str "vmess" ∧ (vmessParse s).type = str "vmess") ∧
    ((ssParse s).source = str "ss" ∧ (ssParse s).type = str "ss") ∧
    ((trojanParse s).source = str "trojan" ∧ (trojanParse s).type = str "trojan") ∧
    ((hysteriaParse s).source = str "hysteria" ∧
      (hysteriaParse s).type = str "hysteria") ∧
    ((hysteria2Parse s).source = str "hysteria2" ∧
      (hysteria2Parse s).type = str "hysteria2") ∧
    ((tuicParse s).source = str "tuic" ∧ (tuicParse s).type = str "tuic") ∧
    ((ssrParse s).source = str "ssr" ∧ (ssrParse s).type = str "ssr") :=
  ⟨vlessParse_shape s, vmessParse_shape s, ssParse_shape s, trojanParse_shape s,
   hysteriaParse_shape s, hysteria2Parse_shape s, tuicParse_shape s, ssrParse_shape s⟩

/-! #### `extras.rawUrl` lemmas (C3) -/

theorem vmessFromObj_rawUrl (rawUrl payloadRaw jsonRawUsed fragmentName : Str)
    (queryRaw : Option Str) (vmObj : List (Str × Json)) (ws1 : List Str) :
    (vmessFromObj rawUrl payloadRaw jsonRawUsed fragmentName
        queryRaw vmObj ws1).extras.rawUrl = some rawUrl := by
  unfold vmessFromObj vmessExtras
  dsimp only

theorem ssrFromDecoded_rawUrl (rawUrl payloadRaw decodedText : Str)
    (fragment : Option Str) (ws0 : List Str) :
    (ssrFromDecoded rawUrl payloadRaw decodedText fragment ws0).extras.rawUrl
      = some rawUrl := by
  unfold ssrFromDecoded ssrExtras
  dsimp only

theorem vlessParse_rawUrl (s : Str) :
    (vlessParse s).extras.rawUrl
      = if jsTrim s = [] then none else some (jsTrim s) := by
  unfold vlessParse
  dsimp only

theorem ssParse_rawUrl (s : Str) :
    (ssParse s).extras.rawUrl = some (jsTrim s) := by
  unfold ssParse
  dsimp only
  split
  · rename_i h
    rw [h]
  · with_reducible rfl

theorem vmessParse_rawUrl (s : Str) :
    (vmessParse s).extras.rawUrl = some (jsTrim s) := by
  unfold vmessParse
  dsimp only
  split
  · rename_i h
    rw [h]
  · with_reducible exact vmessFromObj_rawUrl _ _ _ _ _ _ _

theorem trojanParse_rawUrl (s : Str) :
    (trojanParse s).extras.rawUrl = some (jsTrim s) := by
  unfold trojanParse
  dsimp only
  split
  · rename_i h
    rw [h]
  · with_reducible rfl

theorem hysteriaParse_rawUrl (s : Str) :
    (hysteriaParse s).extras.rawUrl = some (jsTrim s) := by
  unfold hysteriaParse
  dsimp only
  split
  · rename_i h
    rw [h]
  · with_reducible rfl

theorem hysteria2Parse_rawUrl (s : Str) :
    (hysteria2Parse s).extras.rawUrl = some (jsTrim s) := by
  unfold hysteria2Parse
  dsimp only
  split
  · rename_i h
    rw [h]
  · with_reducible rfl

theorem tuicParse_rawUrl (s : Str) :
    (tuicParse s).extras.rawUrl = some (jsTrim s) := by
  unfold tuicParse
  dsimp only
  split
  · rename_i h
    rw [h]
  · with_reducible rfl

theorem ssrParse_rawUrl (s : Str) :
    (ssrParse s).extras.rawUrl = some (jsTrim s) := by
  unfold ssrParse
  dsimp only
  repeat' split
  all_goals first
    | with_reducible exact ssrFromDecoded_rawUrl _ _ _ _ _
    | with_reducible rfl
    | (rename_i h; rw [h])

/-- C3 counterexample: on whitespace-only input (a total parse failure)
the VLESS parser's record carries no `extras.rawUrl` at all — the
source's `rawUrl: rawUrl || undefined` drops the field — refuting
"always present ... even on total parse failure" for `VLESSParser`. -/
theorem vlessParse_ws_rawUrl_none :
    (vlessParse (str " ")).extras.rawUrl = none := by decide

/-- C3 (amended): the SS, VMess, Trojan, Hysteria, Hysteria2, TUIC and
SSR parsers always return `extras.rawUrl = some (trimmed input)`, on
failure branches included; the VLESS parser carries it exactly when the
trimmed input is non-empty and omits it (`undefined`) on empty or
whitespace-only input. -/
theorem parsers_rawUrl_presence (s : Str) :
    (ssParse s).extras.rawUrl = some (jsTrim s) ∧
    (vmessParse s).extras.rawUrl = some (jsTrim s) ∧
    (trojanParse s).extras.rawUrl = some (jsTrim s) ∧
    (hysteriaParse s).extras.rawUrl = some (jsTrim s) ∧
    (hysteria2Parse s).extras.rawUrl = some (jsTrim s) ∧
    (tuicParse s).extras.rawUrl = some (jsTrim s) ∧
    (ssrParse s).extras.rawUrl = some (jsTrim s) ∧
    (vlessParse s).extras.rawUrl
      = (if jsTrim s = [] then none else some (jsTrim s)) :=
  ⟨ssParse_rawUrl s, vmessParse_rawUrl s, trojanParse_rawUrl s,
   hysteriaParse_rawUrl s, hysteria2Parse_rawUrl s, tuicParse_rawUrl s,
   ssrParse_rawUrl s, vlessParse_rawUrl s⟩

/-! #### TLS lemmas (C10) -/

theorem hysteriaParse_tls (s : Str) (h : jsTrim s ≠ []) :
    (hysteriaParse s).tls.map (fun t => (t.enabled, t.security))
      = some (true, some (str "tls")) := by
  unfold hysteriaParse
  dsimp only
  split
  · rename_i h2
    exact absurd h2 h
  · rfl

theorem tuicParse_tls (s : Str) (h : jsTrim s ≠ []) :
    (tuicParse s).tls.map (fun t => (t.enabled, t.security))
      = some (true, some (str "tls")) := by
  unfold tuicParse
  dsimp only
  split
  · rename_i h2
    exact absurd h2 h
  · rfl

/-- C10: for every non-empty trimmed input, the Hysteria and TUIC
parsers return `tls.enabled = true` and `tls.security = "tls"`; no
query parameter can disable TLS (shown concretely for inputs that try
to). The source `catch` branches are dead in the total embedding. -/
theorem hysteria_tuic_tls_always_on :
    (∀ s, jsTrim s ≠ [] →
      (hysteriaParse s).tls.map (fun t => (t.enabled, t.security))
          = some (true, some (str "tls")) ∧
        (tuicParse s).tls.map (fun t => (t.enabled, t.security))
          = some (true, some (str "tls"))) ∧
    (hysteriaParse (str "hysteria://a@h.com:443?tls=0&security=none")).tls.map
        (fun t => (t.enabled, t.security)) = some (true, some (str "tls")) ∧
    (tuicParse (str "tuic://u:p@h.com:443?tls=false&security=none")).tls.map
        (fun t => (t.enabled, t.security)) = some (true, some (str "tls")) := by
  refine ⟨fun s h => ⟨hysteriaParse_tls s h, tuicParse_tls s h⟩, ?_, ?_⟩
  · decide
  · decide

/-! #### Dispatcher lemmas (C4) -/

theorem parserFor_none_iff_converterFor_none (p : Str) :
    parserFor p = none ↔ converterFor p = none := by
  unfold parserFor converterFor
  repeat' split
  all_goals first
    | rfl
    | simp_all

/-- C4: `parseProxyLink` returns the hard-failure value exactly when the
protocol token — the substring before `://`, trimmed, lowercased and
alias-resolved — has no registered parser (equivalently, by
`parserFor_none_iff_converterFor_none`, no converter); and concretely
`foobar://x` produces the unsupported-protocol error message without
any exception (the embedding is total). -/
theorem parseProxyLink_err_iff_unsupported :
    (∀ link, (∃ msg, parseProxyLink link = PLResult.err msg) ↔
      parserFor (normalizeProtocol (beforeSub (jsTrim link) (str "://"))) = none) ∧
    parseProxyLink (str "foobar://x")
      = PLResult.err (str "不支持的协议: foobar") := by
  constructor
  · intro link
    unfold parseProxyLink
    dsimp only
    split
    · rename_i h
      rw [h]
      constructor
      · intro _
        rfl
      · intro _
        exact ⟨_, rfl⟩
    · split
      · rename_i pf cf hpf hcf
        constructor
        · rintro ⟨m, hm⟩
          exact PLResult.noConfusion hm
        · intro hnone
          rw [hpf] at hnone
          exact Option.noConfusion hnone
      · rename_i hdef
        constructor
        · intro _
          rcases hp : parserFor
              (normalizeProtocol (beforeSub (jsTrim link) (str "://"))) with _ | pf
          · rfl
          · rcases hc : converterFor
                (normalizeProtocol (beforeSub (jsTrim link) (str "://"))) with _ | cf
            · have h2 := (parserFor_none_iff_converterFor_none _).mpr hc
              rw [hp] at h2
              exact Option.noConfusion h2
            · exact (hdef pf cf hp hc).elim
        · intro _
          exact ⟨_, rfl⟩
  · rfl


/-! #### Batch lemmas (C5) -/

/-- Spec-modelled batch proxy list (the spec's words): per input line,
keep the successful parse results in input order, silently skipping
blank lines and lines without `://`. -/
def batchSpecProxies (lines : List Str) : List ClashProxy :=
  lines.filterMap (fun line =>
    let t := jsTrim line
    if t = [] ∨ ¬ hasSub t (str "://") then none
    else
      match parseProxyLink t with
      | PLResult.ok p _ => some p
      | PLResult.err _ => none)

/-- Spec-modelled batch error list starting at 0-based index `idx`: one
entry per rejected non-skipped line, whose `line` is the 1-based
original position counting skipped lines. -/
def batchSpecErrorsFrom (idx : Nat) (lines : List Str) : List BatchError :=
  (List.enumFrom idx lines).filterMap (fun pr =>
    let t := jsTrim pr.2
    if t = [] ∨ ¬ hasSub t (str "://") then none
    else
      match parseProxyLink t with
      | PLResult.ok _ _ => none
      | PLResult.err e => some { line := pr.1 + 1, link := truncLink t, error := e })

/-- Spec-modelled batch error list (the spec's words). -/
def batchSpecErrors (lines : List Str) : List BatchError :=
  batchSpecErrorsFrom 0 lines

theorem batchGo_spec (lines : List Str) : ∀ idx,
    (batchGo idx lines).proxies = batchSpecProxies lines ∧
      (batchGo idx lines).errors = batchSpecErrorsFrom idx lines := by
  induction lines with
  | nil =>
    intro idx
    exact ⟨rfl, rfl⟩
  | cons line rest ih =>
    intro idx
    have hrest := ih (idx + 1)
    constructor
    · unfold batchGo batchSpecProxies
      dsimp only
      split
      · rename_i hc
        simp only [List.filterMap_cons, if_pos hc]
        exact hrest.1
      · rename_i hc
        simp only [List.filterMap_cons, if_neg hc]
        rcases hp : parseProxyLink (jsTrim line) with ⟨p, w⟩ | e
        · simp only [hp]
          rw [hrest.1]
          rfl
        · simp only [hp]
          exact hrest.1
    · unfold batchGo batchSpecErrorsFrom
      dsimp only [List.enumFrom]
      split
      · rename_i hc
        simp only [List.filterMap_cons, if_pos hc]
        exact hrest.2
      · rename_i hc
        simp only [List.filterMap_cons, if_neg hc]
        rcases hp : parseProxyLink (jsTrim line) with ⟨p, w⟩ | e
        · simp only [hp]
          exact hrest.2
        · simp only [hp]
          rw [hrest.2]
          rfl

/-- The mixed-validity sample batch of the spec scenario: a valid VMess
link, a blank line, a garbage line without `://`, an unsupported-scheme
link. -/
def c5SampleLines : List Str :=
  [str "vmess://" ++
     b64EncodeStr (str "\x7b\"add\":\"h.com\",\"port\":443,\"id\":\"x\"\x7d"),
   [], str "this is not a link", str "foobar://x"]

/-- C5: `parseBatchProxyLinks` silently skips blank lines and lines
without `://`; every remaining line that `parseProxyLink` rejects
contributes one `errors` entry whose `line` is the 1-based original
position counting skipped lines, and `proxies` lists the successes in
input line order (stated as equality with the spec-modelled
`batchSpecProxies`/`batchSpecErrors`); on the mixed sample the batch
yields one proxy and one error, on line 4. -/
theorem parseBatch_skips_and_collects :
    (∀ lines, (parseBatchProxyLinksList lines).proxies = batchSpecProxies lines ∧
      (parseBatchProxyLinksList lines).errors = batchSpecErrors lines) ∧
    (parseBatchProxyLinksList c5SampleLines).proxies.length = 1 ∧
    (parseBatchProxyLinksList c5SampleLines).errors.map (fun e => (e.line, e.error))
      = [(4, str "不支持的协议: foobar")] := by
  refine ⟨fun lines => ⟨(batchGo_spec lines 0).1, (batchGo_spec lines 0).2⟩, ?_, ?_⟩
  · decide
  · decide


/-! #### List splitting helpers -/

theorem splitOnP_single (p : Nat → Bool) (s : Str) (h : ∀ a ∈ s, p a = false) :
    splitOnP p s = [s] := by
  induction s with
  | nil => rfl
  | cons c rest ih =>
    unfold splitOnP
    rw [ih (fun a ha => h a (List.mem_cons_of_mem c ha))]
    simp [h c (List.mem_cons_self c rest)]

theorem splitOnC_single (c : Nat) (s : Str) (h : c ∉ s) : splitOnC c s = [s] :=
  splitOnP_single _ _ (fun a ha => decide_eq_false (fun hac => h (hac ▸ ha)))

/-! #### SS plugin lemmas (C7) -/

/-- The SS raw `plugin` re-extraction does not split on `;`: for any
query of the form `plugin=<e>` whose value `e` contains no `&`, the
whole percent-decoded value comes back, semicolons included. -/
theorem rawPlugin_not_split (e : Str) (he : 38 ∉ e) :
    getRawQueryFirstParamNoSemicolon (some (str "plugin=" ++ e)) (str "plugin")
      = some (safeDecodeURIComponent e) := by
  have hpfx : str "plugin=" = [112, 108, 117, 103, 105, 110, 61] := by decide
  have hsingle : splitOnC 38 ([112, 108, 117, 103, 105, 110, 61] ++ e)
      = [[112, 108, 117, 103, 105, 110, 61] ++ e] := by
    apply splitOnC_single
    intro hmem
    rcases List.mem_append.mp hmem with h1 | h2
    · simp at h1
    · exact he h2
  unfold getRawQueryFirstParamNoSemicolon
  rw [hpfx]
  dsimp only [asStringO, Option.getD_some, List.cons_append, List.nil_append]
  rw [show ((112 : Nat) :: 108 :: 117 :: 103 :: 105 :: 110 :: 61 :: e)
        = [112, 108, 117, 103, 105, 110, 61] ++ e from rfl] at *
  rw [if_neg (by simp), hsingle]
  unfold goRawParam
  rw [if_neg (by simp)]
  dsimp only [List.cons_append, List.nil_append]
  simp only [idxOfC?, if_neg, reduceIte, Option.map_some]
  norm_num
  intro hne
  exact absurd (by decide) hne


set_option maxRecDepth 8000 in
/-- C7: the raw re-extraction of the SS `plugin` query parameter splits
on `&` only — never on `;` — so the full percent-decoded value
survives (general over the encoded value); concretely, for the spec
scenario link the record has `plugin = "obfs-local"`, the `;`-delimited
sub-options `obfs=http` and `obfs-host=example.com` in `pluginOpts`,
and the full decoded string in `extras.pluginRaw`. -/
theorem ss_plugin_semicolon_preserved :
    (∀ e, 38 ∉ e →
      getRawQueryFirstParamNoSemicolon (some (str "plugin=" ++ e)) (str "plugin")
        = some (safeDecodeURIComponent e)) ∧
    (ssParse (str "ss://YWVzLTI1Ni1nY206cGFzc3dvcmQ=@example.com:8388/?plugin=obfs-local%3Bobfs%3Dhttp%3Bobfs-host%3Dexample.com")).plugin
        = some (str "obfs-local") ∧
    (ssParse (str "ss://YWVzLTI1Ni1nY206cGFzc3dvcmQ=@example.com:8388/?plugin=obfs-local%3Bobfs%3Dhttp%3Bobfs-host%3Dexample.com")).pluginOpts
        = some [(str "obfs", POptVal.strv (str "http")),
                (str "obfs-host", POptVal.strv (str "example.com"))] ∧
    (ssParse (str "ss://YWVzLTI1Ni1nY206cGFzc3dvcmQ=@example.com:8388/?plugin=obfs-local%3Bobfs%3Dhttp%3Bobfs-host%3Dexample.com")).extras.pluginRaw
        = some (str "obfs-local;obfs=http;obfs-host=example.com") := by
  refine ⟨rawPlugin_not_split, ?_, ?_, ?_⟩
  · decide
  · decide
  · decide


/-! #### UUID fallback lemmas (C9) -/

theorem normalizeUuidVmess_keeps_raw (uuidRaw : Option Json) (ws : List Str)
    (h1 : jsTrim (jsAsStringO uuidRaw) ≠ [])
    (h2 : isUuid (jsTrim (jsAsStringO uuidRaw)) = false)
    (h3 : ¬(jsTrim (asStringO (base64DecodeUtf8 (jsTrim (jsAsStringO uuidRaw)))) ≠ [] ∧
        isUuid (jsTrim (asStringO (base64DecodeUtf8 (jsTrim (jsAsStringO uuidRaw)))))
          = true)) :
    normalizeUuidVmess uuidRaw ws
      = (jsTrim (jsAsStringO uuidRaw),
         ws ++ [str "id（uuid）不合法（既不是标准 UUID，也无法作为 Base64 UUID 解码）"]) := by
  unfold normalizeUuidVmess
  dsimp only
  rw [if_neg h1, if_neg (by simp [h2]), if_neg h3]

theorem normalizeUuidTuic_keeps_raw (uuidRaw : Str) (ws : List Str)
    (h1 : jsTrim uuidRaw ≠ [])
    (h2 : isUuid (jsTrim uuidRaw) = false)
    (h3 : ¬(jsTrim (asStringO (base64DecodeUtf8 (jsTrim uuidRaw))) ≠ [] ∧
        isUuid (jsTrim (asStringO (base64DecodeUtf8 (jsTrim uuidRaw)))) = true)) :
    normalizeUuidTuic uuidRaw ws
      = (jsTrim uuidRaw, ws ++ [str "uuid 不合法（已保留原值）"]) := by
  unfold normalizeUuidTuic
  dsimp only
  rw [if_neg h1, if_neg (by simp [h2]), if_neg h3]

theorem normalizeUuidVless_keeps_raw (uuidRaw : Str) (ws : List Str)
    (h1 : jsTrim uuidRaw ≠ [])
    (hpfx : jsToLower ((jsTrim uuidRaw).take 5) ≠ str "uuid:")
    (h2 : isUuid (jsTrim uuidRaw) = false)
    (h3 : ¬(jsTrim (asStringO (base64DecodeUtf8 (jsTrim uuidRaw))) ≠ [] ∧
        isUuid (jsTrim (asStringO (base64DecodeUtf8 (jsTrim uuidRaw)))) = true)) :
    normalizeUuidVless uuidRaw ws
      = (jsTrim uuidRaw,
         ws ++ [str "UUID 非法（既不是标准 UUID，也无法作为 Base64 UUID 解码）"]) := by
  unfold normalizeUuidVless
  dsimp only
  rw [if_neg h1, if_neg hpfx]
  dsimp only
  rw [if_neg (by simp [h2]), if_neg h3]

/-- C9 counterexample: for the non-empty candidate
`"uuid:11111111-2222-4333-8444-555555555555"` — which is itself neither
a canonical UUID nor Base64-decodable (it contains `:`) — the VLESS
normalization does NOT keep the raw string: the `uuid:` prefix recovery
returns the text after the colon instead. -/
theorem vless_uuid_prefix_not_kept :
    (normalizeUuidVless (str "uuid:11111111-2222-4333-8444-555555555555") []).1
        = str "11111111-2222-4333-8444-555555555555" ∧
      (normalizeUuidVless (str "uuid:11111111-2222-4333-8444-555555555555") []).1
        ≠ str "uuid:11111111-2222-4333-8444-555555555555" := by decide

/-- C9 (amended): with an invalid-UUID warning appended, the VMess and
TUIC normalizations keep the raw invalid candidate whenever it is
non-empty, not canonical and not Base64-decodable to a canonical UUID;
the VLESS normalization does so only when the candidate additionally
does not start (case-insensitively) with `uuid:` — concretely shown on
`"not-a-uuid!"` for all three. -/
theorem uuid_invalid_kept_raw :
    (∀ uuidRaw ws, jsTrim (jsAsStringO uuidRaw) ≠ [] →
      isUuid (jsTrim (jsAsStringO uuidRaw)) = false →
      ¬(jsTrim (asStringO (base64DecodeUtf8 (jsTrim (jsAsStringO uuidRaw)))) ≠ [] ∧
          isUuid (jsTrim (asStringO (base64DecodeUtf8 (jsTrim (jsAsStringO uuidRaw)))))
            = true) →
      (normalizeUuidVmess uuidRaw ws).1 = jsTrim (jsAsStringO uuidRaw)) ∧
    (∀ uuidRaw ws, jsTrim uuidRaw ≠ [] →
      isUuid (jsTrim uuidRaw) = false →
      ¬(jsTrim (asStringO (base64DecodeUtf8 (jsTrim uuidRaw))) ≠ [] ∧
          isUuid (jsTrim (asStringO (base64DecodeUtf8 (jsTrim uuidRaw)))) = true) →
      (normalizeUuidTuic uuidRaw ws).1 = jsTrim uuidRaw) ∧
    (∀ uuidRaw ws, jsTrim uuidRaw ≠ [] →
      jsToLower ((jsTrim uuidRaw).take 5) ≠ str "uuid:" →
      isUuid (jsTrim uuidRaw) = false →
      ¬(jsTrim (asStringO (base64DecodeUtf8 (jsTrim uuidRaw))) ≠ [] ∧
          isUuid (jsTrim (asStringO (base64DecodeUtf8 (jsTrim uuidRaw)))) = true) →
      (normalizeUuidVless uuidRaw ws).1 = jsTrim uuidRaw) ∧
    (normalizeUuidVmess (some (Json.str (str "not-a-uuid!"))) []).1
        = str "not-a-uuid!" ∧
    (normalizeUuidTuic (str "not-a-uuid!") []).1 = str "not-a-uuid!" ∧
    (normalizeUuidVless (str "not-a-uuid!") []).1 = str "not-a-uuid!" := by
  refine ⟨?_, ?_, ?_, by decide, by decide, by decide⟩
  · intro uuidRaw ws h1 h2 h3
    rw [normalizeUuidVmess_keeps_raw uuidRaw ws h1 h2 h3]
  · intro uuidRaw ws h1 h2 h3
    rw [normalizeUuidTuic_keeps_raw uuidRaw ws h1 h2 h3]
  · intro uuidRaw ws h1 hpfx h2 h3
    rw [normalizeUuidVless_keeps_raw uuidRaw ws h1 hpfx h2 h3]


/-! #### Index/count helpers for the authority rules (C6) -/

theorem idxOfC?_not_mem (c : Nat) (s : Str) (h : c ∉ s) : idxOfC? c s = none := by
  induction s with
  | nil => rfl
  | cons a rest ih =>
    have hne : ¬(a = c) := by
      rintro rfl
      exact h (List.mem_cons_self a rest)
    unfold idxOfC?
    rw [if_neg hne, ih (fun hm => h (List.mem_cons_of_mem a hm))]
    rfl

theorem idxOfC?_append_self (c : Nat) (l r : Str) (h : c ∉ l) :
    idxOfC? c (l ++ c :: r) = some l.length := by
  induction l with
  | nil => simp [idxOfC?]
  | cons a rest ih =>
    have hne : ¬(a = c) := by
      rintro rfl
      exact h (List.mem_cons_self a rest)
    rw [List.cons_append]
    unfold idxOfC?
    rw [if_neg hne, ih (fun hm => h (List.mem_cons_of_mem a hm))]
    rfl

theorem lastIdxOfC?_boundary (c : Nat) (a b : Str) (h : c ∉ b) :
    lastIdxOfC? c (a ++ c :: b) = some a.length := by
  unfold lastIdxOfC?
  have hrev : (a ++ c :: b).reverse = b.reverse ++ c :: a.reverse := by
    simp
  rw [hrev, idxOfC?_append_self c _ _ (fun hm => h (List.mem_reverse.mp hm))]
  show some ((a ++ c :: b).length - 1 - b.reverse.length) = some a.length
  congr 1
  simp only [List.length_append, List.length_cons, List.length_reverse]
  omega

theorem countC_one (a b : Str) (c : Nat) (ha : c ∉ a) (hb : c ∉ b) :
    countC c (a ++ c :: b) = 1 := by
  unfold countC
  rw [List.count_append, List.count_cons_self,
    List.count_eq_zero.mpr ha, List.count_eq_zero.mpr hb]

theorem countC_zero (s : Str) (c : Nat) (h : c ∉ s) : countC c s = 0 :=
  List.count_eq_zero.mpr h

theorem dropWhile_of_false (p : Nat → Bool) (s : Str)
    (h : ∀ x ∈ s, p x = false) : s.dropWhile p = s := by
  cases s with
  | nil => rfl
  | cons a rest =>
    rw [List.dropWhile_cons, if_neg]
    simp [h a (List.mem_cons_self a rest)]

theorem takeWhile_of_true (p : Nat → Bool) (s : Str)
    (h : ∀ x ∈ s, p x = true) : s.takeWhile p = s := by
  induction s with
  | nil => rfl
  | cons a rest ih =>
    rw [List.takeWhile_cons, if_pos (by simp [h a (List.mem_cons_self a rest)]),
      ih (fun x hx => h x (List.mem_cons_of_mem a hx))]

theorem jsTrim_of_no_ws (s : Str) (h : ∀ x ∈ s, isJsWs x = false) :
    jsTrim s = s := by
  unfold jsTrim
  rw [dropWhile_of_false _ _ h,
    dropWhile_of_false _ _ (fun x hx => h x (List.mem_reverse.mp hx)),
    List.reverse_reverse]

theorem take_app_len (l r : Str) : (l ++ r).take l.length = l := by
  induction l with
  | nil => rfl
  | cons a rest ih => simp [ih]

theorem drop_app_len_add (l r : Str) (k : Nat) :
    (l ++ r).drop (l.length + k) = r.drop k := by
  induction l with
  | nil => simp
  | cons a rest ih =>
    rw [List.cons_append, List.length_cons,
      show rest.length + 1 + k = (rest.length + k) + 1 by omega,
      List.drop_succ_cons, ih]

theorem digits_not_ws (ds : Str) (hdig : ds.all isDigitC = true) :
    ∀ x ∈ ds, isJsWs x = false := by
  intro x hx
  have := List.all_eq_true.mp hdig x hx
  unfold isDigitC at this
  unfold isJsWs
  simp at this ⊢
  omega

theorem jsParseIntDec_digits (ds : Str) (hne : ds ≠ [])
    (hdig : ds.all isDigitC = true) :
    jsParseIntDec ds = some ((natDecVal ds : Int)) := by
  have hall := List.all_eq_true.mp hdig
  unfold jsParseIntDec
  rw [jsTrim_of_no_ws _ (digits_not_ws _ hdig)]
  dsimp only
  rcases ds with _ | ⟨d, rest⟩
  · exact absurd rfl hne
  · have hd := hall d (List.mem_cons_self d rest)
    unfold isDigitC at hd
    simp at hd
    have h4345 : ¬((d :: rest : Str).head? = some 43 ∨
        (d :: rest : Str).head? = some 45) := by
      simp
      omega
    have h45 : ¬((d :: rest : Str).head? = some 45) := by
      simp
      omega
    rw [if_neg h4345, takeWhile_of_true _ _ hall, if_neg hne, if_neg h45]


theorem isPortNum_ofNat (n : Nat) (h : isPortNat n = true) :
    isPortNum (some (n : Int)) = true := by
  unfold isPortNat at h
  unfold isPortNum
  simp at h ⊢
  omega

theorem parseHostPort_bracket_port (inner ds : Str) (h93 : 93 ∉ inner)
    (hne : ds ≠ []) (hdig : ds.all isDigitC = true)
    (hport : isPortNat (natDecVal ds) = true) :
    parseHostPort (91 :: inner ++ 93 :: 58 :: ds)
      = (some inner, some (natDecVal ds)) := by
  have hidx : idxOfC? 93 (91 :: (inner ++ 93 :: 58 :: ds))
      = some (inner.length + 1) := by
    unfold idxOfC?
    rw [if_neg (by omega), idxOfC?_append_self 93 inner _ h93]
    rfl
  have hhead : ((91 : Nat) :: (inner ++ 93 :: 58 :: ds)).head? = some 91 := rfl
  have hhost : jsSlice (91 :: (inner ++ 93 :: 58 :: ds)) 1 (inner.length + 1)
      = inner := by
    unfold jsSlice
    rw [show (91 :: (inner ++ 93 :: 58 :: ds) : Str).drop 1
          = inner ++ 93 :: 58 :: ds from rfl,
      show inner.length + 1 - 1 = inner.length by omega,
      take_app_len]
  have hrest : (91 :: (inner ++ 93 :: 58 :: ds) : Str).drop (inner.length + 1 + 1)
      = 58 :: ds := by
    rw [show (91 :: (inner ++ 93 :: 58 :: ds) : Str)
          = (91 :: inner) ++ (93 :: 58 :: ds) by simp,
      show inner.length + 1 + 1 = (91 :: inner).length + 1 by simp,
      drop_app_len_add]
    rfl
  have hhead58 : ((58 : Nat) :: ds).head? = some 58 := rfl
  unfold parseHostPort
  simp only [List.cons_append]
  rw [if_neg (by simp), if_pos hhead, hidx]
  dsimp only
  rw [if_pos (by omega), hhost, hrest, if_pos hhead58,
    show ((58 : Nat) :: ds).drop 1 = ds from rfl,
    jsParseIntDec_digits ds hne hdig]
  dsimp only
  rw [if_pos (isPortNum_ofNat _ hport)]
  simp

theorem parseHostPort_bracket_unmatched (inner : Str) (h93 : 93 ∉ inner) :
    parseHostPort (91 :: inner) = (some (91 :: inner), none) := by
  have hidx : idxOfC? 93 (91 :: inner) = none := by
    unfold idxOfC?
    rw [if_neg (by omega), idxOfC?_not_mem 93 inner h93]
    rfl
  have hhead : ((91 : Nat) :: inner).head? = some 91 := rfl
  unfold parseHostPort
  rw [if_neg (by simp), if_pos hhead, hidx]

theorem parseHostPort_multi_colon (hp : Str) (h91 : hp.head? ≠ some 91)
    (hc : 1 < countC 58 hp) :
    parseHostPort hp = (some hp, none) := by
  have hne : hp ≠ [] := by
    rintro rfl
    simp [countC] at hc
  unfold parseHostPort
  rw [if_neg hne, if_neg h91]
  dsimp only
  rw [if_pos hc]

theorem parseHostPort_one_colon_valid (a b : Str) (ha : 58 ∉ a) (hb : 58 ∉ b)
    (h91 : (a ++ 58 :: b).head? ≠ some 91) (hbne : b ≠ [])
    (hlen : b.length ≤ 5) (hdig : b.all isDigitC = true)
    (hport : isPortNat (natDecVal b) = true) :
    parseHostPort (a ++ 58 :: b)
      = ((if a = [] then none else some a), some (natDecVal b)) := by
  have hne : (a ++ 58 :: b : Str) ≠ [] := by simp
  have hcount : countC 58 (a ++ 58 :: b) = 1 := countC_one a b 58 ha hb
  have hlast : lastIdxOfC? 58 (a ++ 58 :: b) = some a.length :=
    lastIdxOfC?_boundary 58 a b hb
  have htake : (a ++ 58 :: b).take a.length = a := take_app_len a _
  have hdrop : (a ++ 58 :: b).drop (a.length + 1) = b := by
    rw [drop_app_len_add a _ 1]
    rfl
  unfold parseHostPort
  rw [if_neg hne, if_neg h91]
  dsimp only
  rw [hcount, if_neg (by omega), if_pos (by omega), hlast]
  dsimp only
  rw [htake, hdrop, if_pos (by simp [hbne, hlen, hdig]), if_pos hport]

theorem parseHostPort_one_colon_invalid (a b : Str) (ha : 58 ∉ a) (hb : 58 ∉ b)
    (h91 : (a ++ 58 :: b).head? ≠ some 91)
    (hfail : b = [] ∨ 5 < b.length ∨ b.all isDigitC = false ∨
      isPortNat (natDecVal b) = false) :
    parseHostPort (a ++ 58 :: b) = (some (a ++ 58 :: b), none) := by
  have hne : (a ++ 58 :: b : Str) ≠ [] := by simp
  have hcount : countC 58 (a ++ 58 :: b) = 1 := countC_one a b 58 ha hb
  have hlast : lastIdxOfC? 58 (a ++ 58 :: b) = some a.length :=
    lastIdxOfC?_boundary 58 a b hb
  have htake : (a ++ 58 :: b).take a.length = a := take_app_len a _
  have hdrop : (a ++ 58 :: b).drop (a.length + 1) = b := by
    rw [drop_app_len_add a _ 1]
    rfl
  unfold parseHostPort
  rw [if_neg hne, if_neg h91]
  dsimp only
  rw [hcount, if_neg (by omega), if_pos (by omega), hlast]
  dsimp only
  rw [htake, hdrop]
  rcases hfail with h | h | h | h
  · rw [if_neg (by simp [h])]
  · rw [if_neg (by simp; intro _ h2; omega)]
  · rw [if_neg (by simp [h])]
  · by_cases hcond : (decide (b ≠ []) && decide (b.length ≤ 5) && b.all isDigitC)
        = true
    · rw [if_pos hcond, if_neg (by simp [h])]
    · rw [if_neg hcond]

theorem parseHostPort_no_colon (hp : Str) (hne : hp ≠ [])
    (h91 : hp.head? ≠ some 91) (hc : 58 ∉ hp) :
    parseHostPort hp = (some hp, none) := by
  unfold parseHostPort
  rw [if_neg hne, if_neg h91]
  dsimp only
  rw [countC_zero hp 58 hc, if_neg (by omega), if_neg (by omega)]

/-- C6: the host/port-splitting rules of `parseAuthority`
(`parseHostPort` is its splitting stage, applied to the trimmed
authority after the userinfo split): a `[`-led host is read to the
matching `]` with an optional valid `:port` after it, an unmatched `[`
makes the whole string the host with no port; without brackets, more
than one colon keeps the whole string as host with no port; exactly one
colon splits only when the right side is 1-5 digits forming a valid
port, else the whole string is the host; no colon keeps the whole
string; and concretely `[2001:db8::1]:443` splits into host
`2001:db8::1` and port 443 while `::1` is a bare host with no port. -/
theorem parseAuthority_splitting_rules :
    (∀ inner ds, 93 ∉ inner → ds ≠ [] → ds.all isDigitC = true →
      isPortNat (natDecVal ds) = true →
      parseHostPort (91 :: inner ++ 93 :: 58 :: ds)
        = (some inner, some (natDecVal ds))) ∧
    (∀ inner, 93 ∉ inner →
      parseHostPort (91 :: inner) = (some (91 :: inner), none)) ∧
    (∀ hp, hp.head? ≠ some 91 → 1 < countC 58 hp →
      parseHostPort hp = (some hp, none)) ∧
    (∀ a b, 58 ∉ a → 58 ∉ b → (a ++ 58 :: b).head? ≠ some 91 → b ≠ [] →
      b.length ≤ 5 → b.all isDigitC = true → isPortNat (natDecVal b) = true →
      parseHostPort (a ++ 58 :: b)
        = ((if a = [] then none else some a), some (natDecVal b))) ∧
    (∀ a b, 58 ∉ a → 58 ∉ b → (a ++ 58 :: b).head? ≠ some 91 →
      (b = [] ∨ 5 < b.length ∨ b.all isDigitC = false ∨
        isPortNat (natDecVal b) = false) →
      parseHostPort (a ++ 58 :: b) = (some (a ++ 58 :: b), none)) ∧
    (∀ hp, hp ≠ [] → hp.head? ≠ some 91 → 58 ∉ hp →
      parseHostPort hp = (some hp, none)) ∧
    parseAuthority (str "[2001:db8::1]:443")
      = ⟨none, some (str "2001:db8::1"), some 443⟩ ∧
    parseAuthority (str "::1") = ⟨none, some (str "::1"), none⟩ := by
  refine ⟨parseHostPort_bracket_port, parseHostPort_bracket_unmatched,
    parseHostPort_multi_colon, parseHostPort_one_colon_valid,
    parseHostPort_one_colon_invalid, parseHostPort_no_colon, ?_, ?_⟩
  · decide
  · decide


/-! #### Base64-UUID round-trip lemmas (C8) -/

theorem b64v?_b64chr (v : Nat) (h : v < 64) : b64v? (b64chr v) = some v := by
  have hfin : ∀ w : Fin 64, b64v? (b64chr w.val) = some w.val := by decide
  exact hfin ⟨v, h⟩

theorem b64chr_facts (v : Nat) (h : v < 64) :
    b64chr v ≠ 61 ∧ validB64Charset (b64chr v) = true ∧
      isJsWs (b64chr v) = false ∧ b64chr v ≠ 45 ∧ b64chr v ≠ 95 ∧
      b64chr v ≠ 58 := by
  have hfin : ∀ w : Fin 64,
      b64chr w.val ≠ 61 ∧ validB64Charset (b64chr w.val) = true ∧
        isJsWs (b64chr w.val) = false ∧ b64chr w.val ≠ 45 ∧
        b64chr w.val ≠ 95 ∧ b64chr w.val ≠ 58 := by decide
  exact hfin ⟨v, h⟩

theorem mem_b64EncTriples (bs : List Nat) (hb : ∀ x ∈ bs, x < 256) (c : Nat)
    (hc : c ∈ b64EncTriples bs) :
    (∃ v, v < 64 ∧ c = b64chr v) ∨ c = 61 := by
  induction bs using b64EncTriples.induct with
  | case1 x y z rest ih =>
    have hx := hb x (by simp)
    have hy := hb y (by simp)
    have hz := hb z (by simp)
    rw [b64EncTriples] at hc
    simp only [List.mem_cons] at hc
    rcases hc with rfl | rfl | rfl | rfl | hrest
    · exact Or.inl ⟨x / 4, by omega, rfl⟩
    · exact Or.inl ⟨x % 4 * 16 + y / 16, by omega, rfl⟩
    · exact Or.inl ⟨y % 16 * 4 + z / 64, by omega, rfl⟩
    · exact Or.inl ⟨z % 64, by omega, rfl⟩
    · exact ih (fun b hbm => hb b (by simp [hbm])) hrest
  | case2 x y =>
    have hx := hb x (by simp)
    have hy := hb y (by simp)
    rw [b64EncTriples] at hc
    simp only [List.mem_cons, List.not_mem_nil, or_false] at hc
    rcases hc with rfl | rfl | rfl | rfl
    · exact Or.inl ⟨x / 4, by omega, rfl⟩
    · exact Or.inl ⟨x % 4 * 16 + y / 16, by omega, rfl⟩
    · exact Or.inl ⟨y % 16 * 4, by omega, rfl⟩
    · exact Or.inr rfl
  | case3 x =>
    have hx := hb x (by simp)
    rw [b64EncTriples] at hc
    simp only [List.mem_cons, List.not_mem_nil, or_false] at hc
    rcases hc with rfl | rfl | rfl | rfl
    · exact Or.inl ⟨x / 4, by omega, rfl⟩
    · exact Or.inl ⟨x % 4 * 16, by omega, rfl⟩
    · exact Or.inr rfl
    · exact Or.inr rfl
  | case4 =>
    rw [b64EncTriples] at hc
    cases hc

theorem b64EncTriples_len_mod4 (bs : List Nat) :
    (b64EncTriples bs).length % 4 = 0 := by
  induction bs using b64EncTriples.induct with
  | case1 x y z rest ih =>
    rw [b64EncTriples]
    simp only [List.length_cons]
    omega
  | case2 x y => simp [b64EncTriples]
  | case3 x => simp [b64EncTriples]
  | case4 => rfl

theorem b64EncTriples_ne_nil (bs : List Nat) (h : bs ≠ []) :
    b64EncTriples bs ≠ [] := by
  induction bs using b64EncTriples.induct with
  | case1 x y z rest ih => simp [b64EncTriples]
  | case2 x y => simp [b64EncTriples]
  | case3 x => simp [b64EncTriples]
  | case4 => exact absurd rfl h

theorem b64_roundtrip (bs : List Nat) (hb : ∀ x ∈ bs, x < 256) :
    b64Bytes (sextets (b64EncTriples bs)) = bs := by
  induction bs using b64EncTriples.induct with
  | case1 x y z rest ih =>
    have hx := hb x (by simp)
    have hy := hb y (by simp)
    have hz := hb z (by simp)
    have f1 := b64chr_facts (x / 4) (by omega)
    have f2 := b64chr_facts (x % 4 * 16 + y / 16) (by omega)
    have f3 := b64chr_facts (y % 16 * 4 + z / 64) (by omega)
    have f4 := b64chr_facts (z % 64) (by omega)
    rw [b64EncTriples]
    rw [sextets, if_neg f1.1, b64v?_b64chr _ (by omega)]
    rw [sextets, if_neg f2.1, b64v?_b64chr _ (by omega)]
    rw [sextets, if_neg f3.1, b64v?_b64chr _ (by omega)]
    rw [sextets, if_neg f4.1, b64v?_b64chr _ (by omega)]
    rw [b64Bytes]
    rw [ih (fun b hbm => hb b (by simp [hbm]))]
    have e1 : x / 4 * 4 + (x % 4 * 16 + y / 16) / 16 = x := by omega
    have e2 : (x % 4 * 16 + y / 16) % 16 * 16 + (y % 16 * 4 + z / 64) / 4 = y := by
      omega
    have e3 : (y % 16 * 4 + z / 64) % 4 * 64 + z % 64 = z := by omega
    rw [e1, e2, e3]
  | case2 x y =>
    have hx := hb x (by simp)
    have hy := hb y (by simp)
    have f1 := b64chr_facts (x / 4) (by omega)
    have f2 := b64chr_facts (x % 4 * 16 + y / 16) (by omega)
    have f3 := b64chr_facts (y % 16 * 4) (by omega)
    rw [b64EncTriples]
    rw [sextets, if_neg f1.1, b64v?_b64chr _ (by omega)]
    rw [sextets, if_neg f2.1, b64v?_b64chr _ (by omega)]
    rw [sextets, if_neg f3.1, b64v?_b64chr _ (by omega)]
    rw [sextets, if_pos rfl]
    rw [b64Bytes]
    have e1 : x / 4 * 4 + (x % 4 * 16 + y / 16) / 16 = x := by omega
    have e2 : (x % 4 * 16 + y / 16) % 16 * 16 + y % 16 * 4 / 4 = y := by omega
    rw [e1, e2]
  | case3 x =>
    have hx := hb x (by simp)
    have f1 := b64chr_facts (x / 4) (by omega)
    have f2 := b64chr_facts (x % 4 * 16) (by omega)
    rw [b64EncTriples]
    rw [sextets, if_neg f1.1, b64v?_b64chr _ (by omega)]
    rw [sextets, if_neg f2.1, b64v?_b64chr _ (by omega)]
    rw [sextets, if_pos rfl]
    rw [b64Bytes]
    have e1 : x / 4 * 4 + x % 4 * 16 / 16 = x := by omega
    rw [e1]
  | case4 => rfl

theorem utf8Encode_ascii (s : Str) (h : ∀ c ∈ s, c < 128) :
    utf8Encode s = s := by
  induction s with
  | nil => rfl
  | cons c rest ih =>
    unfold utf8Encode at *
    simp only [List.map_cons, List.flatten_cons]
    rw [ih (fun x hx => h x (List.mem_cons_of_mem c hx))]
    unfold utf8EncodeChar
    rw [if_pos (h c (List.mem_cons_self c rest))]
    rfl

theorem utf8Step_ascii (b : Nat) (rest : List Nat) (h : b < 128) :
    utf8Step b rest = (b, rest) := by
  unfold utf8Step
  rw [if_pos h]

theorem utf8DecodeLossy_ascii (bs : List Nat) (h : ∀ x ∈ bs, x < 128) :
    utf8DecodeLossy bs = bs := by
  induction bs with
  | nil => simp [utf8DecodeLossy]
  | cons b rest ih =>
    rw [utf8DecodeLossy, utf8Step_ascii b rest (h b (List.mem_cons_self b rest))]
    dsimp only
    rw [ih (fun x hx => h x (List.mem_cons_of_mem b hx))]

theorem splitOnP_ne_nil (p : Nat → Bool) (s : Str) : splitOnP p s ≠ [] := by
  cases s with
  | nil => simp [splitOnP]
  | cons c rest =>
    unfold splitOnP
    split
    · simp
    · dsimp only
      split
      · simp
      · simp

theorem splitOnP_mem_decomp (p : Nat → Bool) (s : Str) (a : Nat) (ha : a ∈ s) :
    p a = true ∨ ∃ g ∈ splitOnP p s, a ∈ g := by
  induction s with
  | nil => cases ha
  | cons c rest ih =>
    rcases List.mem_cons.mp ha with rfl | hrest
    · by_cases hp : p a = true
      · exact Or.inl hp
      · right
        unfold splitOnP
        rw [if_neg (by simp [hp])]
        rcases hr : splitOnP p rest with _ | ⟨g0, gs⟩
        · exact absurd hr (splitOnP_ne_nil p rest)
        · exact ⟨a :: g0, by simp, by simp⟩
    · rcases ih hrest with hp | ⟨g, hg, hag⟩
      · exact Or.inl hp
      · right
        unfold splitOnP
        split
        · exact ⟨g, by simp [hg], hag⟩
        · rcases hr : splitOnP p rest with _ | ⟨g0, gs⟩
          · exact absurd hr (splitOnP_ne_nil p rest)
          · rw [hr] at hg
            rcases List.mem_cons.mp hg with rfl | hgs
            · exact ⟨c :: g, by simp, List.mem_cons_of_mem c hag⟩
            · exact ⟨g, by simp [hgs], hag⟩

theorem isUuid_ne_nil (u : Str) (h : isUuid u = true) : u ≠ [] := by
  rintro rfl
  exact absurd h (by decide)

theorem isUuid_chars (u : Str) (ht : jsTrim u = u) (h : isUuid u = true) :
    ∀ c ∈ u, isHexC c = true ∨ c = 45 := by
  have hne := isUuid_ne_nil u h
  unfold isUuid at h
  rw [ht, if_neg hne] at h
  intro c hc
  rcases splitOnP_mem_decomp (· = 45) u c hc with hp | ⟨g, hg, hcg⟩
  · exact Or.inr (by simpa using hp)
  · left
    rcases h5 : splitOnC 45 u with _ | ⟨g1, _ | ⟨g2, _ | ⟨g3, _ | ⟨g4, _ | ⟨g5, _ | ⟨g6, t⟩⟩⟩⟩⟩⟩ <;>
        rw [h5] at h <;>
      try (exfalso; simpa using h)
    simp only [Bool.and_eq_true] at h
    have hhex : isHexS g1 = true ∧ isHexS g2 = true ∧ isHexS g3 = true ∧
        isHexS g4 = true ∧ isHexS g5 = true := by tauto
    have hgmem : g ∈ splitOnC 45 u := hg
    rw [h5] at hgmem
    simp only [List.mem_cons, List.not_mem_nil, or_false] at hgmem
    rcases hgmem with rfl | rfl | rfl | rfl | rfl
    · exact List.all_eq_true.mp hhex.1 c hcg
    · exact List.all_eq_true.mp hhex.2.1 c hcg
    · exact List.all_eq_true.mp hhex.2.2.1 c hcg
    · exact List.all_eq_true.mp hhex.2.2.2.1 c hcg
    · exact List.all_eq_true.mp hhex.2.2.2.2 c hcg

theorem uuid_char_bounds (c : Nat) (h : isHexC c = true ∨ c = 45) :
    c < 128 ∧ c < 256 ∧ isJsWs c = false := by
  have hb : c = 45 ∨ (48 ≤ c ∧ c ≤ 57) ∨ (65 ≤ c ∧ c ≤ 70) ∨
      (97 ≤ c ∧ c ≤ 102) := by
    rcases h with h | rfl
    · unfold isHexC isDigitC at h
      simp only [Bool.or_eq_true, Bool.and_eq_true, decide_eq_true_eq] at h
      omega
    · omega
  refine ⟨by omega, by omega, ?_⟩
  by_contra hws
  unfold isJsWs at hws
  simp only [Bool.not_eq_false, Bool.or_eq_true, decide_eq_true_eq] at hws
  omega

theorem normalizeBase64Input_fixed (e : Str) (hne : e ≠ [])
    (hnws : ∀ c ∈ e, isJsWs c = false) (hno45 : 45 ∉ e) (hno95 : 95 ∉ e)
    (hlen : e.length % 4 = 0) : normalizeBase64Input e = e := by
  have hfilter : e.filter (fun c => !(isJsWs c)) = e :=
    List.filter_eq_self.mpr (fun a ha => by simp [hnws a ha])
  have hmap : e.map (fun c => if c = 45 then 43 else if c = 95 then 47 else c)
      = e := by
    have hcong : ∀ a ∈ e,
        (if a = 45 then 43 else if a = 95 then 47 else a) = a := by
      intro a ha
      have h45 : ¬(a = 45) := by
        rintro rfl
        exact hno45 ha
      have h95 : ¬(a = 95) := by
        rintro rfl
        exact hno95 ha
      rw [if_neg h45, if_neg h95]
    rw [List.map_congr_left hcong]
    simp
  unfold normalizeBase64Input
  rw [jsTrim_of_no_ws _ hnws, if_neg hne, hfilter]
  dsimp only
  rw [hmap, hlen]

theorem base64DecodeUtf8_of_enc (e : Str) (hne : e ≠ [])
    (hnorm : normalizeBase64Input e = e)
    (hcharset : ∀ c ∈ e, validB64Charset c = true)
    (hlen : e.length % 4 = 0) :
    base64DecodeUtf8 e = some (utf8DecodeLossy (b64Bytes (sextets e))) := by
  unfold base64DecodeUtf8
  rw [hnorm, if_neg hne,
    if_neg (by
      intro hbad
      simp only [List.any_eq_true] at hbad
      obtain ⟨c, hc, hb2⟩ := hbad
      rw [hcharset c hc] at hb2
      simp at hb2),
    if_neg (by omega)]

theorem encChar_facts (c : Nat) (h : (∃ v, v < 64 ∧ c = b64chr v) ∨ c = 61) :
    validB64Charset c = true ∧ isJsWs c = false ∧ c ≠ 45 ∧ c ≠ 95 ∧ c ≠ 58 := by
  rcases h with ⟨v, hv, rfl⟩ | rfl
  · have := b64chr_facts v hv
    exact ⟨this.2.1, this.2.2.1, this.2.2.2.1, this.2.2.2.2.1, this.2.2.2.2.2⟩
  · refine ⟨by decide, by decide, by decide, by decide, by decide⟩

theorem no_colon_no_uuid_prefix (e : Str) (h58 : 58 ∉ e) :
    jsToLower (e.take 5) ≠ str "uuid:" := by
  intro heq
  have hmem : (58 : Nat) ∈ jsToLower (e.take 5) := by
    rw [heq]
    decide
  unfold jsToLower at hmem
  obtain ⟨c, hc, hlc⟩ := List.mem_map.mp hmem
  have hc58 : c = 58 := by
    unfold toLowerC at hlc
    split at hlc
    · rename_i hcond
      simp only [Bool.and_eq_true, decide_eq_true_eq] at hcond
      omega
    · omega
  rw [hc58] at hc
  exact h58 (List.mem_of_mem_take hc)

theorem isUuid_no_hyphen_false (e : Str) (ht : jsTrim e = e) (hne : e ≠ [])
    (h45 : 45 ∉ e) : isUuid e = false := by
  unfold isUuid
  rw [ht, if_neg hne, splitOnC_single 45 e h45]

theorem b64EncodeStr_uuid_props (u : Str) (hu : isUuid u = true)
    (ht : jsTrim u = u) :
    jsTrim (b64EncodeStr u) = b64EncodeStr u ∧ b64EncodeStr u ≠ [] ∧
      isUuid (b64EncodeStr u) = false ∧
      jsToLower ((b64EncodeStr u).take 5) ≠ str "uuid:" ∧
      base64DecodeUtf8 (b64EncodeStr u) = some u := by
  have hchars := isUuid_chars u ht hu
  have h128 : ∀ c ∈ u, c < 128 := fun c hc => (uuid_char_bounds c (hchars c hc)).1
  have h256 : ∀ c ∈ u, c < 256 := fun c hc => (uuid_char_bounds c (hchars c hc)).2.1
  have hne_u : u ≠ [] := isUuid_ne_nil u hu
  have henc : b64EncodeStr u = b64EncTriples u := by
    unfold b64EncodeStr
    rw [utf8Encode_ascii u h128]
  have he_mem : ∀ c ∈ b64EncodeStr u,
      (∃ v, v < 64 ∧ c = b64chr v) ∨ c = 61 := by
    rw [henc]
    exact fun c hc => mem_b64EncTriples u h256 c hc
  have hefacts := fun c hc => encChar_facts c (he_mem c hc)
  have htrim_e : jsTrim (b64EncodeStr u) = b64EncodeStr u :=
    jsTrim_of_no_ws _ (fun c hc => (hefacts c hc).2.1)
  have hne_e : b64EncodeStr u ≠ [] := by
    rw [henc]
    exact b64EncTriples_ne_nil u hne_u
  have h45e : 45 ∉ b64EncodeStr u := fun hm => (hefacts _ hm).2.2.1 rfl
  have h95e : 95 ∉ b64EncodeStr u := fun hm => (hefacts _ hm).2.2.2.1 rfl
  have h58e : 58 ∉ b64EncodeStr u := fun hm => (hefacts _ hm).2.2.2.2 rfl
  have hlen : (b64EncodeStr u).length % 4 = 0 := by
    rw [henc]
    exact b64EncTriples_len_mod4 u
  have hnorm : normalizeBase64Input (b64EncodeStr u) = b64EncodeStr u :=
    normalizeBase64Input_fixed _ hne_e (fun c hc => (hefacts c hc).2.1) h45e h95e hlen
  have hdecode : base64DecodeUtf8 (b64EncodeStr u) = some u := by
    rw [base64DecodeUtf8_of_enc _ hne_e hnorm
        (fun c hc => (hefacts c hc).1) hlen]
    rw [henc, b64_roundtrip u h256, utf8DecodeLossy_ascii u h128]
  exact ⟨htrim_e, hne_e, isUuid_no_hyphen_false _ htrim_e hne_e h45e,
    no_colon_no_uuid_prefix _ h58e, hdecode⟩

theorem normalizeUuidVless_b64 (u : Str) (ws : List Str) (hu : isUuid u = true)
    (ht : jsTrim u = u) :
    normalizeUuidVless (b64EncodeStr u) ws
      = (u, ws ++ [str "检测到非标准 Base64 UUID，已成功解码为标准 UUID"]) := by
  obtain ⟨htrim_e, hne_e, huuid_e, hpfx, hdecode⟩ := b64EncodeStr_uuid_props u hu ht
  have hne_u : u ≠ [] := isUuid_ne_nil u hu
  unfold normalizeUuidVless
  rw [htrim_e, if_neg hne_e, if_neg hpfx]
  dsimp only
  rw [if_neg (by simp [huuid_e]), hdecode]
  dsimp only [asStringO, Option.getD]
  rw [ht, if_pos ⟨hne_u, hu⟩]

theorem normalizeUuidTuic_b64 (u : Str) (ws : List Str) (hu : isUuid u = true)
    (ht : jsTrim u = u) :
    normalizeUuidTuic (b64EncodeStr u) ws
      = (u, ws ++ [str "检测到非标准 Base64 UUID：已成功解码为标准 UUID"]) := by
  obtain ⟨htrim_e, hne_e, huuid_e, hpfx, hdecode⟩ := b64EncodeStr_uuid_props u hu ht
  have hne_u : u ≠ [] := isUuid_ne_nil u hu
  unfold normalizeUuidTuic
  rw [htrim_e, if_neg hne_e, if_neg (by simp [huuid_e]), hdecode]
  dsimp only [asStringO, Option.getD]
  rw [ht, if_pos ⟨hne_u, hu⟩]

set_option maxRecDepth 8000 in
/-- C8: for every canonical (trimmed) UUID `u`, feeding `Base64(u)`
through the UUID-tolerant normalization of the VLESS and TUIC parsers
recovers `u` exactly, with the non-standard-Base64 warning appended;
shown generally and on a concrete UUID. -/
theorem base64_uuid_roundtrip :
    (∀ u ws, isUuid u = true → jsTrim u = u →
      normalizeUuidVless (b64EncodeStr u) ws
          = (u, ws ++ [str "检测到非标准 Base64 UUID，已成功解码为标准 UUID"]) ∧
        normalizeUuidTuic (b64EncodeStr u) ws
          = (u, ws ++ [str "检测到非标准 Base64 UUID：已成功解码为标准 UUID"])) ∧
    normalizeUuidVless
        (b64EncodeStr (str "11111111-2222-4333-8444-555555555555")) []
      = (str "11111111-2222-4333-8444-555555555555",
         [str "检测到非标准 Base64 UUID，已成功解码为标准 UUID"]) ∧
    normalizeUuidTuic
        (b64EncodeStr (str "11111111-2222-4333-8444-555555555555")) []
      = (str "11111111-2222-4333-8444-555555555555",
         [str "检测到非标准 Base64 UUID：已成功解码为标准 UUID"]) := by
  refine ⟨fun u ws hu ht => ⟨normalizeUuidVless_b64 u ws hu ht,
    normalizeUuidTuic_b64 u ws hu ht⟩,
    normalizeUuidVless_b64 _ [] (by decide) (by decide),
    normalizeUuidTuic_b64 _ [] (by decide) (by decide)⟩

end ClashConv
